import Mathlib

/-!
External-name configuration of provider-aws.

A shallow embedding of `config/externalname.go`: the identifier constructors
(`FormattedIdentifierFromProvider`, `FormattedIdentifierUserDefinedNameLast`,
`FormattedIdentifierUserDefinedNameFirst`), the custom strategies (`route`,
`routeTableAssociation`, `lambdaFunctionURL`, `iamUserGroupMembership`,
`eksOIDCIdentityProvider`), the table `ExternalNameConfigs` and the resource option
`ExternalNameConfigurations`, together with the Go standard-library string functions
they call (`strings.Join`, `strings.Index`, `strings.Split`).

Modelling conventions.

* A Go `string` is a Lean `String`, i.e. a sequence of characters; positions and
  lengths are counted on the character list `String.data`.  For text that is valid
  UTF-8 the byte-level search of Go and the character-level search used here find
  the same occurrences.
* A Go `interface{}` value is a `Value`; a `map[string]interface{}` is an association
  list read with `List.lookup` (the first binding of a key is the binding of the map).
* An entry of the table is kept as the expression that builds it (`Entry`); the
  closures that this file defines are embedded as functions of their own
  (`route.GetIDFn`, ...), the strategy values of upjet are not interpreted.
* A constructor that copies a strategy value of upjet and overrides one field takes
  that value (or the upjet constructor) as an argument and returns an `ExternalName`.
* A Go call that returns `(string, error)` is a `Result String`: `ok v` is `(v, nil)`,
  `error msg` is a returned error whose message is `msg`, and `abort` is a run-time
  panic (failed type assertion, index out of range).
-/

namespace Config

/-- A dynamically typed Go value stored in a `map[string]interface{}`. -/
inductive Value where
  | null : Value
  | bool (b : Bool) : Value
  | number (n : Int) : Value
  | string (s : String) : Value
  | list (xs : List Value) : Value
  | map (m : List (String × Value)) : Value

/-- A `map[string]interface{}`: the parameter bag or the Terraform state. -/
abbrev Bag := List (String × Value)

/-- The outcome of a Go call of type `(T, error)` that may also panic. -/
inductive Result (α : Type) where
  | ok (val : α) : Result α
  | error (msg : String) : Result α
  | abort : Result α
  deriving DecidableEq, Repr

/-! ## Go standard library: `strings` -/

/-- Go `strings.Join(elems, sep)`: the first element, then for every further element the
separator followed by the element. -/
def Join (elems : List String) (sep : String) : String :=
  match elems with
  | [] => ""
  | e :: rest => rest.foldl (fun b s => b ++ sep ++ s) e

/-- Go `strings.Index(s, substr)` on character lists: the position of the first occurrence
of `substr` in `s`, or `none` (Go: `-1`) when there is none. -/
def Index : List Char → List Char → Option Nat
  | [], substr => if substr = [] then some 0 else none
  | c :: cs, substr =>
    if substr <+: c :: cs then some 0 else (Index cs substr).map (· + 1)

/-- The loop of `strings.genSplit` for a non-empty separator: as long as `Index` finds
the separator, emit the text before it and continue behind it; the rest is the last
token.  Go bounds the loop by `Count(s, sep)`; here `n` bounds the number of
iterations, and `s.length` iterations always suffice (`genSplit_fuel`). -/
def genSplit (sep : List Char) : Nat → List Char → List (List Char)
  | 0, s => [s]
  | n + 1, s =>
    match Index s sep with
    | none => [s]
    | some m => s.take m :: genSplit sep n (s.drop (m + sep.length))

/-- Go `strings.Split(s, sep)`: with an empty separator the string is exploded into its
characters (no token at all for the empty string), otherwise it is cut at the
occurrences of `sep` found from left to right. -/
def Split (s sep : String) : List String :=
  if sep.data = [] then s.data.map (fun c => String.mk [c])
  else (genSplit sep.data s.data.length s.data).map String.mk

/-! ## `config/externalname.go` -/

/-- The loop `for i, key := range keys` shared by the three `GetIDFn` closures: every
key must be present (`"%s cannot be empty"`) and hold a string (the message of the
failed check is `key ++ mismatch`, which differs between the constructors); the
string values are collected in key order. -/
def keyValues (mismatch : String) (parameters : Bag) : List String → Result (List String)
  | [] => .ok []
  | key :: keys =>
    match parameters.lookup key with
    | none => .error (key ++ " cannot be empty")
    | some (.string s) =>
      match keyValues mismatch parameters keys with
      | .ok vals => .ok (s :: vals)
      | .error msg => .error msg
      | .abort => .abort
    | some _ => .error (key ++ mismatch)

/-- The `GetIDFn` closure of `FormattedIdentifierFromProvider(separator, keys...)`:
the values of the keys joined with the separator. -/
def FormattedIdentifierFromProvider.GetIDFn (separator : String) (keys : List String)
    (_externalName : String) (parameters : Bag) (_terraformProviderConfig : Bag) :
    Result String :=
  match keyValues " needs to be string" parameters keys with
  | .ok vals => .ok (Join vals separator)
  | .error msg => .error msg
  | .abort => .abort

/-- The `GetIDFn` closure of `FormattedIdentifierUserDefinedNameLast(param, separator, keys...)`:
the external name fills the last slot of `vals`. -/
def FormattedIdentifierUserDefinedNameLast.GetIDFn (separator : String)
    (keys : List String) (externalName : String) (parameters : Bag)
    (_terraformProviderConfig : Bag) : Result String :=
  match keyValues " needs to be a string" parameters keys with
  | .ok vals => .ok (Join (vals ++ [externalName]) separator)
  | .error msg => .error msg
  | .abort => .abort

/-- The `GetExternalNameFn` closure of `FormattedIdentifierUserDefinedNameLast`: `w[len(w)-1]` of
`w := strings.Split(s, separator)`; indexing an empty `w` panics. -/
def FormattedIdentifierUserDefinedNameLast.GetExternalNameFn (separator : String)
    (tfstate : Bag) : Result String :=
  match tfstate.lookup "id" with
  | none => .error "id in tfstate cannot be empty"
  | some (.string s) =>
    match (Split s separator).getLast? with
    | some name => .ok name
    | none => .abort
  | some _ => .error "value of id needs to be string"

/-- The `GetIDFn` closure of `FormattedIdentifierUserDefinedNameFirst(param, separator, keys...)`:
the external name fills slot `0` of `vals`. -/
def FormattedIdentifierUserDefinedNameFirst.GetIDFn (separator : String)
    (keys : List String) (externalName : String) (parameters : Bag)
    (_terraformProviderConfig : Bag) : Result String :=
  match keyValues " needs to be a string" parameters keys with
  | .ok vals => .ok (Join (externalName :: vals) separator)
  | .error msg => .error msg
  | .abort => .abort

/-- The `GetExternalNameFn` closure of `FormattedIdentifierUserDefinedNameFirst`: `w[0]` of
`w := strings.Split(s, separator)`; indexing an empty `w` panics. -/
def FormattedIdentifierUserDefinedNameFirst.GetExternalNameFn (separator : String)
    (tfstate : Bag) : Result String :=
  match tfstate.lookup "id" with
  | none => .error "id in tfstate cannot be empty"
  | some (.string s) =>
    match (Split s separator).head? with
    | some name => .ok name
    | none => .abort
  | some _ => .error "value of id needs to be string"

/-! ## Go expressions on interface values -/

/-- Sequencing of two Go evaluations: an error or a panic of the first ends the call. -/
def Result.bind {α β : Type} (r : Result α) (f : α → Result β) : Result β :=
  match r with
  | .ok v => f v
  | .error msg => .error msg
  | .abort => .abort

/-- The index expression `m[key]` read without the `ok` flag: the value bound to the
key, and the nil interface when the key is absent. -/
def valueAt (m : Bag) (key : String) : Value :=
  (m.lookup key).getD .null

/-- The comparison `v == nil` of an interface value. -/
def Value.isNil : Value → Bool
  | .null => true
  | _ => false

/-- The comparison `v == s` of an interface value with a string constant: true only for
a string value equal to `s`. -/
def Value.eqString : Value → String → Bool
  | .string t, s => t == s
  | _, _ => false

/-- The type assertion `v.(string)`, which panics on every value that is not a
string. -/
def Value.assertString : Value → Result String
  | .string s => .ok s
  | _ => .abort

/-- The type assertion `v.([]interface{})`, which panics on every value that is not a
list. -/
def Value.assertList : Value → Result (List Value)
  | .list xs => .ok xs
  | _ => .abort

/-! ## The custom strategies of `config/externalname.go` -/

/-- The `GetIDFn` closure of `lambdaFunctionURL()`: `function_name`, followed by `/` and
the qualifier when a qualifier other than nil and `""` is given. -/
def lambdaFunctionURL.GetIDFn (_externalName : String) (parameters : Bag)
    (_terraformProviderConfig : Bag) : Result String :=
  match parameters.lookup "function_name" with
  | none => .error "function_name cannot be empty"
  | some functionName =>
    let qualifier := valueAt parameters "qualifier"
    if qualifier.isNil || qualifier.eqString "" then
      functionName.assertString
    else
      functionName.assertString.bind fun f =>
        qualifier.assertString.bind fun q => .ok (f ++ "/" ++ q)

/-- The loop `for _, g := range gs.([]interface{})` of `iamUserGroupMembership()`: every
element is asserted to be a string and appended to `groups`. -/
def groupNames : List Value → Result (List String)
  | [] => .ok []
  | g :: gs => g.assertString.bind fun s => (groupNames gs).bind fun rest => .ok (s :: rest)

/-- The `GetIDFn` closure of `iamUserGroupMembership()`: the user followed by the groups,
joined with `/`. -/
def iamUserGroupMembership.GetIDFn (_externalName : String) (parameters : Bag)
    (_terraformProviderConfig : Bag) : Result String :=
  match parameters.lookup "user" with
  | none => .error "user cannot be empty"
  | some u =>
    match parameters.lookup "groups" with
    | none => .error "groups cannot be empty"
    | some gs =>
      gs.assertList.bind fun elems =>
        (groupNames elems).bind fun groups =>
          u.assertString.bind fun user => .ok (Join (user :: groups) "/")

/-- The `GetIDFn` closure of `route()`: the route table id, `_`, and the first
destination field that is not nil, tried in the order of the `switch`. -/
def route.GetIDFn (_externalName : String) (parameters : Bag)
    (_terraformProviderConfig : Bag) : Result String :=
  match parameters.lookup "route_table_id" with
  | none => .error "route_table_id cannot be empty"
  | some rtb =>
    if !(valueAt parameters "destination_cidr_block").isNil then
      rtb.assertString.bind fun r =>
        (valueAt parameters "destination_cidr_block").assertString.bind fun d =>
          .ok (r ++ "_" ++ d)
    else if !(valueAt parameters "destination_ipv6_cidr_block").isNil then
      rtb.assertString.bind fun r =>
        (valueAt parameters "destination_ipv6_cidr_block").assertString.bind fun d =>
          .ok (r ++ "_" ++ d)
    else if !(valueAt parameters "destination_prefix_list_id").isNil then
      rtb.assertString.bind fun r =>
        (valueAt parameters "destination_prefix_list_id").assertString.bind fun d =>
          .ok (r ++ "_" ++ d)
    else
      .error ("destination_cidr_block or destination_ipv6_cidr_block or " ++
        "destination_prefix_list_id has to be given")

/-- The `GetIDFn` closure of `routeTableAssociation()`: the subnet id or else the gateway
id, `/`, and the route table id. -/
def routeTableAssociation.GetIDFn (_externalName : String) (parameters : Bag)
    (_terraformProviderConfig : Bag) : Result String :=
  match parameters.lookup "route_table_id" with
  | none => .error "route_table_id cannot be empty"
  | some rtb =>
    if !(valueAt parameters "subnet_id").isNil then
      (valueAt parameters "subnet_id").assertString.bind fun a =>
        rtb.assertString.bind fun r => .ok (a ++ "/" ++ r)
    else if !(valueAt parameters "gateway_id").isNil then
      (valueAt parameters "gateway_id").assertString.bind fun a =>
        rtb.assertString.bind fun r => .ok (a ++ "/" ++ r)
    else
      .error "gateway_id or subnet_id has to be given"

/-- The `GetExternalNameFn` closure of `eksOIDCIdentityProvider()`: element `1` of
`strings.Split(id.(string), ":")`; a missing element panics. -/
def eksOIDCIdentityProvider.GetExternalNameFn (tfstate : Bag) : Result String :=
  match tfstate.lookup "id" with
  | some id =>
    id.assertString.bind fun s =>
      match (Split s ":")[1]? with
      | some name => .ok name
      | none => .abort
  | none => .error "there is no id in tfstate"

/-- The `GetIDFn` closure of `eksOIDCIdentityProvider()`: the cluster name, `:`, and the
external name. -/
def eksOIDCIdentityProvider.GetIDFn (externalName : String) (parameters : Bag)
    (_terraformProviderConfig : Bag) : Result String :=
  match parameters.lookup "cluster_name" with
  | none => .error "cluster_name cannot be empty"
  | some cl => cl.assertString.bind fun c => .ok (c ++ ":" ++ externalName)

/-- The map assignment `m[key] = v`: the binding of the key is replaced where it stands,
and a key that is not bound yet is added. -/
def setKey (m : Bag) (key : String) (v : Value) : Bag :=
  match m with
  | [] => [(key, v)]
  | (k, w) :: rest => if key == k then (key, v) :: rest else (k, w) :: setKey rest key v

/-- The `SetIdentifierArgumentFn` closure of `eksOIDCIdentityProvider()`, from the bag
before the call to the bag after it.  A missing `oidc` is set to the empty map; when
`oidc` then is a list of length 1 whose element is a map, the external name is written
into that map, which the list and the bag refer to. -/
def eksOIDCIdentityProvider.SetIdentifierArgumentFn (base : Bag) (externalName : String) :
    Bag :=
  let base :=
    match base.lookup "oidc" with
    | none => setKey base "oidc" (.map [])
    | some _ => base
  match valueAt base "oidc" with
  | .list [.map m] =>
    setKey base "oidc"
      (.list [.map (setKey m "identity_provider_config_name" (.string externalName))])
  | _ => base

/-! ## The table `ExternalNameConfigs` and `ExternalNameConfigurations` -/

/-- The expression that builds the value of one entry of `ExternalNameConfigs`: one of
the strategy values and constructors of the `config` package of upjet, or one of the
constructors of `config/externalname.go`, with its arguments. -/
inductive Entry where
  | IdentifierFromProvider : Entry
  | NameAsIdentifier : Entry
  | ParameterAsIdentifier (param : String) : Entry
  | TemplatedStringAsIdentifier (nameFieldPath tmpl : String) : Entry
  | TemplatedStringAsIdentifierWithNoName (tmpl : String) : Entry
  | FormattedIdentifierFromProvider (separator : String) (keys : List String) : Entry
  | FormattedIdentifierUserDefinedNameLast (param separator : String)
      (keys : List String) : Entry
  | route : Entry
  | routeTableAssociation : Entry
  | eksOIDCIdentityProvider : Entry
  | iamUserGroupMembership : Entry
  | lambdaFunctionURL : Entry
  deriving DecidableEq, Repr

/-- The map literal `ExternalNameConfigs`, entry by entry in the order of the source; the
keys of the literal are pairwise distinct, so `List.lookup` reads it as the map does. -/
def ExternalNameConfigs : List (String × Entry) := [
  ("aws_acm_certificate", Entry.IdentifierFromProvider),
  ("aws_acm_certificate_validation", Entry.IdentifierFromProvider),
  ("aws_acmpca_certificate", Entry.IdentifierFromProvider),
  ("aws_acmpca_certificate_authority", Entry.IdentifierFromProvider),
  ("aws_acmpca_certificate_authority_certificate", Entry.IdentifierFromProvider),
  ("aws_prometheus_workspace", Entry.IdentifierFromProvider),
  ("aws_prometheus_rule_group_namespace",
    Entry.TemplatedStringAsIdentifier "name" "arn:aws:aps:\x7b\x7b .parameters.region \x7d\x7d:\x7b\x7b .client_metadata.account_id \x7d\x7d:rulegroupsnamespace/IDstring/\x7b\x7b .external_name \x7d\x7d"),
  ("aws_prometheus_alert_manager_definition", Entry.IdentifierFromProvider),
  ("aws_apigatewayv2_api", Entry.IdentifierFromProvider),
  ("aws_apigatewayv2_api_mapping",
    Entry.TemplatedStringAsIdentifierWithNoName "\x7b\x7b .external_name \x7d\x7d/\x7b\x7b .parameters.domain_name \x7d\x7d"),
  ("aws_apigatewayv2_authorizer",
    Entry.TemplatedStringAsIdentifierWithNoName "\x7b\x7b .parameters.api_id \x7d\x7d/\x7b\x7b .external_name \x7d\x7d"),
  ("aws_apigatewayv2_deployment",
    Entry.TemplatedStringAsIdentifierWithNoName "\x7b\x7b .parameters.api_id \x7d\x7d/\x7b\x7b .external_name \x7d\x7d"),
  ("aws_apigatewayv2_domain_name", Entry.ParameterAsIdentifier "domain_name"),
  ("aws_apigatewayv2_integration",
    Entry.TemplatedStringAsIdentifierWithNoName "\x7b\x7b .parameters.api_id \x7d\x7d/\x7b\x7b .external_name \x7d\x7d"),
  ("aws_apigatewayv2_integration_response",
    Entry.TemplatedStringAsIdentifierWithNoName "\x7b\x7b .parameters.api_id \x7d\x7d/\x7b\x7b .parameters.integration_id \x7d\x7d/\x7b\x7b .external_name \x7d\x7d"),
  ("aws_apigatewayv2_model",
    Entry.TemplatedStringAsIdentifierWithNoName "\x7b\x7b .parameters.api_id \x7d\x7d/\x7b\x7b .external_name \x7d\x7d"),
  ("aws_apigatewayv2_route",
    Entry.TemplatedStringAsIdentifierWithNoName "\x7b\x7b .parameters.api_id \x7d\x7d/\x7b\x7b .external_name \x7d\x7d"),
  ("aws_apigatewayv2_route_response",
    Entry.TemplatedStringAsIdentifierWithNoName "\x7b\x7b .parameters.api_id \x7d\x7d/\x7b\x7b .parameters.route_id \x7d\x7d/\x7b\x7b .external_name \x7d\x7d"),
  ("aws_apigatewayv2_stage",
    Entry.TemplatedStringAsIdentifier "name" "\x7b\x7b .parameters.api_id \x7d\x7d/\x7b\x7b .external_name \x7d\x7d"),
  ("aws_apigatewayv2_vpc_link", Entry.IdentifierFromProvider),
  ("aws_autoscaling_group", Entry.NameAsIdentifier),
  ("aws_autoscaling_attachment", Entry.IdentifierFromProvider),
  ("aws_dynamodb_table_item", Entry.IdentifierFromProvider),
  ("aws_dynamodb_contributor_insights", Entry.IdentifierFromProvider),
  ("aws_dynamodb_kinesis_streaming_destination", Entry.IdentifierFromProvider),
  ("aws_cognito_identity_pool", Entry.IdentifierFromProvider),
  ("aws_cognito_identity_pool_roles_attachment", Entry.IdentifierFromProvider),
  ("aws_cognito_identity_pool_provider_principal_tag", Entry.IdentifierFromProvider),
  ("aws_cognito_user_pool", Entry.IdentifierFromProvider),
  ("aws_cognito_user_pool_client", Entry.IdentifierFromProvider),
  ("aws_cognito_user_pool_domain", Entry.IdentifierFromProvider),
  ("aws_cognito_user_pool_ui_customization", Entry.IdentifierFromProvider),
  ("aws_cognito_resource_server", Entry.IdentifierFromProvider),
  ("aws_cognito_identity_provider", Entry.IdentifierFromProvider),
  ("aws_cognito_user",
    Entry.TemplatedStringAsIdentifier "username" "\x7b\x7b .parameters.user_pool_id \x7d\x7d/\x7b\x7b .external_name \x7d\x7d"),
  ("aws_ebs_volume", Entry.IdentifierFromProvider),
  ("aws_ebs_snapshot", Entry.IdentifierFromProvider),
  ("aws_ebs_snapshot_copy", Entry.IdentifierFromProvider),
  ("aws_ebs_snapshot_import", Entry.IdentifierFromProvider),
  ("aws_instance", Entry.IdentifierFromProvider),
  ("aws_eip", Entry.IdentifierFromProvider),
  ("aws_ec2_transit_gateway", Entry.IdentifierFromProvider),
  ("aws_ec2_transit_gateway_route",
    Entry.FormattedIdentifierFromProvider "_" ["transit_gateway_route_table_id", "destination_cidr_block"]),
  ("aws_ec2_transit_gateway_route_table", Entry.IdentifierFromProvider),
  ("aws_ec2_transit_gateway_route_table_association",
    Entry.FormattedIdentifierFromProvider "_" ["transit_gateway_route_table_id", "transit_gateway_attachment_id"]),
  ("aws_ec2_transit_gateway_vpc_attachment", Entry.IdentifierFromProvider),
  ("aws_ec2_transit_gateway_vpc_attachment_accepter",
    Entry.FormattedIdentifierFromProvider "" ["transit_gateway_attachment_id"]),
  ("aws_launch_template", Entry.IdentifierFromProvider),
  ("aws_launch_configuration", Entry.NameAsIdentifier),
  ("aws_vpc", Entry.IdentifierFromProvider),
  ("aws_vpc_endpoint", Entry.IdentifierFromProvider),
  ("aws_subnet", Entry.IdentifierFromProvider),
  ("aws_network_interface", Entry.IdentifierFromProvider),
  ("aws_security_group", Entry.IdentifierFromProvider),
  ("aws_security_group_rule", Entry.IdentifierFromProvider),
  ("aws_vpc_ipv4_cidr_block_association", Entry.IdentifierFromProvider),
  ("aws_vpc_peering_connection", Entry.IdentifierFromProvider),
  ("aws_route", Entry.route),
  ("aws_route_table", Entry.IdentifierFromProvider),
  ("aws_route_table_association", Entry.routeTableAssociation),
  ("aws_main_route_table_association", Entry.IdentifierFromProvider),
  ("aws_ec2_transit_gateway_multicast_group_member", Entry.IdentifierFromProvider),
  ("aws_ec2_transit_gateway_multicast_group_source", Entry.IdentifierFromProvider),
  ("aws_ec2_transit_gateway_route_table_propagation",
    Entry.FormattedIdentifierFromProvider "_" ["transit_gateway_attachment_id", "transit_gateway_route_table_id"]),
  ("aws_internet_gateway", Entry.IdentifierFromProvider),
  ("aws_nat_gateway", Entry.IdentifierFromProvider),
  ("aws_ec2_transit_gateway_multicast_domain", Entry.IdentifierFromProvider),
  ("aws_ec2_transit_gateway_multicast_domain_association", Entry.IdentifierFromProvider),
  ("aws_ec2_transit_gateway_peering_attachment", Entry.IdentifierFromProvider),
  ("aws_ec2_managed_prefix_list_entry",
    Entry.FormattedIdentifierFromProvider "," ["prefix_list_id", "cidr"]),
  ("aws_ec2_managed_prefix_list", Entry.IdentifierFromProvider),
  ("aws_ec2_transit_gateway_prefix_list_reference",
    Entry.FormattedIdentifierFromProvider "_" ["transit_gateway_route_table_id", "prefix_list_id"]),
  ("aws_egress_only_internet_gateway", Entry.IdentifierFromProvider),
  ("aws_eip_association", Entry.IdentifierFromProvider),
  ("aws_flow_log", Entry.IdentifierFromProvider),
  ("aws_key_pair", Entry.ParameterAsIdentifier "key_name"),
  ("aws_network_acl", Entry.IdentifierFromProvider),
  ("aws_network_interface_attachment", Entry.IdentifierFromProvider),
  ("aws_network_interface_sg_attachment", Entry.IdentifierFromProvider),
  ("aws_network_acl_rule", Entry.IdentifierFromProvider),
  ("aws_spot_instance_request", Entry.IdentifierFromProvider),
  ("aws_volume_attachment", Entry.IdentifierFromProvider),
  ("aws_vpc_dhcp_options", Entry.IdentifierFromProvider),
  ("aws_vpc_dhcp_options_association", Entry.IdentifierFromProvider),
  ("aws_vpc_endpoint_service", Entry.IdentifierFromProvider),
  ("aws_vpc_endpoint_connection_notification", Entry.IdentifierFromProvider),
  ("aws_vpc_endpoint_route_table_association",
    Entry.FormattedIdentifierFromProvider "/" ["vpc_endpoint_id", "route_table_id"]),
  ("aws_placement_group", Entry.NameAsIdentifier),
  ("aws_spot_datafeed_subscription", Entry.IdentifierFromProvider),
  ("aws_vpc_endpoint_service_allowed_principal", Entry.IdentifierFromProvider),
  ("aws_vpc_endpoint_subnet_association",
    Entry.FormattedIdentifierFromProvider "/" ["vpc_endpoint_id", "subnet_id"]),
  ("aws_default_route_table", Entry.IdentifierFromProvider),
  ("aws_ec2_host", Entry.IdentifierFromProvider),
  ("aws_default_vpc", Entry.IdentifierFromProvider),
  ("aws_default_subnet", Entry.IdentifierFromProvider),
  ("aws_default_vpc_dhcp_options", Entry.IdentifierFromProvider),
  ("aws_ebs_default_kms_key", Entry.IdentifierFromProvider),
  ("aws_ebs_encryption_by_default", Entry.IdentifierFromProvider),
  ("aws_ec2_availability_zone_group", Entry.ParameterAsIdentifier "group_name"),
  ("aws_ec2_capacity_reservation", Entry.IdentifierFromProvider),
  ("aws_ec2_carrier_gateway", Entry.IdentifierFromProvider),
  ("aws_ec2_serial_console_access", Entry.IdentifierFromProvider),
  ("aws_ec2_subnet_cidr_reservation", Entry.IdentifierFromProvider),
  ("aws_ec2_traffic_mirror_filter", Entry.IdentifierFromProvider),
  ("aws_ec2_traffic_mirror_filter_rule", Entry.IdentifierFromProvider),
  ("aws_ec2_transit_gateway_connect", Entry.IdentifierFromProvider),
  ("aws_ec2_network_insights_path", Entry.IdentifierFromProvider),
  ("aws_ec2_transit_gateway_peering_attachment_accepter", Entry.IdentifierFromProvider),
  ("aws_snapshot_create_volume_permission", Entry.IdentifierFromProvider),
  ("aws_ecr_repository", Entry.NameAsIdentifier),
  ("aws_ecr_lifecycle_policy", Entry.IdentifierFromProvider),
  ("aws_ecr_pull_through_cache_rule", Entry.IdentifierFromProvider),
  ("aws_ecr_registry_policy", Entry.IdentifierFromProvider),
  ("aws_ecr_registry_scanning_configuration", Entry.IdentifierFromProvider),
  ("aws_ecr_replication_configuration", Entry.IdentifierFromProvider),
  ("aws_ecr_repository_policy", Entry.IdentifierFromProvider),
  ("aws_ecrpublic_repository", Entry.ParameterAsIdentifier "repository_name"),
  ("aws_ecrpublic_repository_policy", Entry.IdentifierFromProvider),
  ("aws_ecs_cluster", Entry.NameAsIdentifier),
  ("aws_ecs_service", Entry.NameAsIdentifier),
  ("aws_ecs_capacity_provider",
    Entry.TemplatedStringAsIdentifier "name" "arn:aws:ecs:\x7b\x7b .setup.configuration.region \x7d\x7d:\x7b\x7b .setup.client_metadata.account_id \x7d\x7d:capacity-provider/\x7b\x7b .external_name \x7d\x7d"),
  ("aws_ecs_task_definition", Entry.IdentifierFromProvider),
  ("aws_ecs_account_setting_default", Entry.IdentifierFromProvider),
  ("aws_ecs_cluster_capacity_providers", Entry.IdentifierFromProvider),
  ("aws_eks_cluster", Entry.NameAsIdentifier),
  ("aws_eks_node_group",
    Entry.TemplatedStringAsIdentifier "node_group_name" "\x7b\x7b .parameters.cluster_name \x7d\x7d:\x7b\x7b .external_name \x7d\x7d"),
  ("aws_eks_addon", Entry.FormattedIdentifierUserDefinedNameLast "addon_name" ":" ["cluster_name"]),
  ("aws_eks_fargate_profile",
    Entry.FormattedIdentifierUserDefinedNameLast "fargate_profile_name" ":" ["cluster_name"]),
  ("aws_eks_identity_provider_config", Entry.eksOIDCIdentityProvider),
  ("aws_elasticache_parameter_group", Entry.IdentifierFromProvider),
  ("aws_elasticache_subnet_group", Entry.NameAsIdentifier),
  ("aws_elasticache_cluster", Entry.ParameterAsIdentifier "cluster_id"),
  ("aws_elasticache_replication_group", Entry.ParameterAsIdentifier "replication_group_id"),
  ("aws_elasticache_user", Entry.ParameterAsIdentifier "user_id"),
  ("aws_elasticache_user_group", Entry.ParameterAsIdentifier "user_group_id"),
  ("aws_lb", Entry.IdentifierFromProvider),
  ("aws_lb_listener", Entry.IdentifierFromProvider),
  ("aws_lb_target_group", Entry.IdentifierFromProvider),
  ("aws_lb_target_group_attachment", Entry.IdentifierFromProvider),
  ("aws_globalaccelerator_accelerator", Entry.IdentifierFromProvider),
  ("aws_globalaccelerator_endpoint_group", Entry.IdentifierFromProvider),
  ("aws_globalaccelerator_listener", Entry.IdentifierFromProvider),
  ("aws_glue_workflow", Entry.NameAsIdentifier),
  ("aws_glue_trigger", Entry.NameAsIdentifier),
  ("aws_glue_user_defined_function",
    Entry.TemplatedStringAsIdentifier "name" "\x7b\x7b .parameters.catalog_id \x7d\x7d:\x7b\x7b .parameters.database_name \x7d\x7d:\x7b\x7b .external_name \x7d\x7d"),
  ("aws_glue_resource_policy", Entry.IdentifierFromProvider),
  ("aws_glue_catalog_database",
    Entry.TemplatedStringAsIdentifier "name" "\x7b\x7b .parameters.catalog_id \x7d\x7d:\x7b\x7b .external_name \x7d\x7d"),
  ("aws_glue_catalog_table",
    Entry.TemplatedStringAsIdentifier "name" "\x7b\x7b .parameters.catalog_id \x7d\x7d:\x7b\x7b .parameters.database_name \x7d\x7d:\x7b\x7b .external_name \x7d\x7d"),
  ("aws_glue_classifier", Entry.NameAsIdentifier),
  ("aws_glue_connection",
    Entry.TemplatedStringAsIdentifier "name" "\x7b\x7b .parameters.catalog_id \x7d\x7d:\x7b\x7b .external_name \x7d\x7d"),
  ("aws_glue_crawler", Entry.NameAsIdentifier),
  ("aws_glue_data_catalog_encryption_settings", Entry.IdentifierFromProvider),
  ("aws_glue_job", Entry.NameAsIdentifier),
  ("aws_glue_registry",
    Entry.TemplatedStringAsIdentifier "registry_name" "arn:aws:glue:\x7b\x7b .setup.configuration.region \x7d\x7d:\x7b\x7b .setup.client_metadata.account_id \x7d\x7d:registry/\x7b\x7b .external_name \x7d\x7d"),
  ("aws_glue_security_configuration", Entry.NameAsIdentifier),
  ("aws_iam_access_key", Entry.IdentifierFromProvider),
  ("aws_iam_instance_profile", Entry.NameAsIdentifier),
  ("aws_iam_policy",
    Entry.TemplatedStringAsIdentifier "name" "arn:aws:iam::\x7b\x7b .setup.client_metadata.account_id \x7d\x7d:policy/\x7b\x7b .external_name \x7d\x7d"),
  ("aws_iam_user", Entry.NameAsIdentifier),
  ("aws_iam_group", Entry.NameAsIdentifier),
  ("aws_iam_role", Entry.NameAsIdentifier),
  ("aws_iam_role_policy_attachment", Entry.IdentifierFromProvider),
  ("aws_iam_user_policy_attachment", Entry.IdentifierFromProvider),
  ("aws_iam_group_policy_attachment", Entry.IdentifierFromProvider),
  ("aws_iam_user_group_membership", Entry.iamUserGroupMembership),
  ("aws_iam_openid_connect_provider", Entry.IdentifierFromProvider),
  ("aws_iam_account_alias", Entry.ParameterAsIdentifier "account_alias"),
  ("aws_iam_account_password_policy", Entry.IdentifierFromProvider),
  ("aws_iam_group_membership", Entry.IdentifierFromProvider),
  ("aws_iam_saml_provider",
    Entry.TemplatedStringAsIdentifier "name" "arn:aws:iam::\x7b\x7b .setup.client_metadata.account_id \x7d\x7d:saml-provider/\x7b\x7b .external_name \x7d\x7d"),
  ("aws_iam_server_certificate", Entry.NameAsIdentifier),
  ("aws_iam_service_linked_role", Entry.IdentifierFromProvider),
  ("aws_iam_service_specific_credential", Entry.IdentifierFromProvider),
  ("aws_iam_signing_certificate", Entry.IdentifierFromProvider),
  ("aws_iam_user_login_profile", Entry.IdentifierFromProvider),
  ("aws_iam_user_ssh_key", Entry.IdentifierFromProvider),
  ("aws_iam_virtual_mfa_device", Entry.IdentifierFromProvider),
  ("aws_kms_key", Entry.IdentifierFromProvider),
  ("aws_kms_alias", Entry.NameAsIdentifier),
  ("aws_kms_ciphertext", Entry.IdentifierFromProvider),
  ("aws_kms_external_key", Entry.IdentifierFromProvider),
  ("aws_kms_grant", Entry.IdentifierFromProvider),
  ("aws_kms_replica_external_key", Entry.IdentifierFromProvider),
  ("aws_kms_replica_key", Entry.IdentifierFromProvider),
  ("aws_mq_broker", Entry.IdentifierFromProvider),
  ("aws_mq_configuration", Entry.IdentifierFromProvider),
  ("aws_neptune_cluster", Entry.ParameterAsIdentifier "cluster_identifier"),
  ("aws_neptune_cluster_endpoint",
    Entry.FormattedIdentifierUserDefinedNameLast "cluster_endpoint_identifier" ":" ["cluster_identifier"]),
  ("aws_neptune_cluster_instance", Entry.ParameterAsIdentifier "identifier"),
  ("aws_neptune_cluster_parameter_group", Entry.NameAsIdentifier),
  ("aws_neptune_cluster_snapshot", Entry.ParameterAsIdentifier "db_cluster_snapshot_identifier"),
  ("aws_neptune_event_subscription", Entry.NameAsIdentifier),
  ("aws_neptune_parameter_group", Entry.NameAsIdentifier),
  ("aws_neptune_subnet_group", Entry.NameAsIdentifier),
  ("aws_rds_cluster", Entry.ParameterAsIdentifier "cluster_identifier"),
  ("aws_db_instance", Entry.ParameterAsIdentifier "identifier"),
  ("aws_db_parameter_group", Entry.NameAsIdentifier),
  ("aws_db_subnet_group", Entry.NameAsIdentifier),
  ("aws_db_instance_role_association", Entry.IdentifierFromProvider),
  ("aws_db_option_group", Entry.NameAsIdentifier),
  ("aws_db_proxy", Entry.NameAsIdentifier),
  ("aws_db_proxy_default_target_group", Entry.IdentifierFromProvider),
  ("aws_db_proxy_endpoint",
    Entry.TemplatedStringAsIdentifier "db_proxy_endpoint_name" "\x7b\x7b .external_name \x7d\x7d/\x7b\x7b .parameters.db_proxy_name \x7d\x7d"),
  ("aws_db_proxy_target", Entry.IdentifierFromProvider),
  ("aws_db_security_group", Entry.NameAsIdentifier),
  ("aws_db_snapshot", Entry.ParameterAsIdentifier "db_snapshot_identifier"),
  ("aws_rds_cluster_activity_stream", Entry.IdentifierFromProvider),
  ("aws_rds_cluster_endpoint", Entry.ParameterAsIdentifier "cluster_endpoint_identifier"),
  ("aws_rds_cluster_instance", Entry.ParameterAsIdentifier "identifier"),
  ("aws_rds_cluster_parameter_group", Entry.NameAsIdentifier),
  ("aws_rds_cluster_role_association",
    Entry.FormattedIdentifierFromProvider "," ["db_cluster_identifier", "role_arn"]),
  ("aws_rds_global_cluster", Entry.ParameterAsIdentifier "global_cluster_identifier"),
  ("aws_route53_delegation_set", Entry.IdentifierFromProvider),
  ("aws_route53_health_check", Entry.IdentifierFromProvider),
  ("aws_route53_hosted_zone_dnssec", Entry.IdentifierFromProvider),
  ("aws_route53_record", Entry.IdentifierFromProvider),
  ("aws_route53_vpc_association_authorization",
    Entry.FormattedIdentifierFromProvider ":" ["zone_id", "vpc_id"]),
  ("aws_route53_zone", Entry.IdentifierFromProvider),
  ("aws_route53_traffic_policy", Entry.IdentifierFromProvider),
  ("aws_route53_traffic_policy_instance", Entry.IdentifierFromProvider),
  ("aws_route53_resolver_endpoint", Entry.IdentifierFromProvider),
  ("aws_route53_resolver_rule", Entry.IdentifierFromProvider),
  ("aws_route53_resolver_rule_association", Entry.IdentifierFromProvider),
  ("aws_s3_bucket", Entry.ParameterAsIdentifier "bucket"),
  ("aws_s3_bucket_object_lock_configuration", Entry.IdentifierFromProvider),
  ("aws_s3_bucket_accelerate_configuration", Entry.IdentifierFromProvider),
  ("aws_s3_bucket_acl", Entry.IdentifierFromProvider),
  ("aws_s3_bucket_analytics_configuration",
    Entry.FormattedIdentifierFromProvider ":" ["bucket", "name"]),
  ("aws_s3_bucket_cors_configuration", Entry.IdentifierFromProvider),
  ("aws_s3_bucket_intelligent_tiering_configuration",
    Entry.FormattedIdentifierFromProvider ":" ["bucket", "name"]),
  ("aws_s3_bucket_inventory", Entry.FormattedIdentifierFromProvider ":" ["bucket", "name"]),
  ("aws_s3_bucket_lifecycle_configuration", Entry.IdentifierFromProvider),
  ("aws_s3_bucket_logging", Entry.IdentifierFromProvider),
  ("aws_s3_bucket_metric", Entry.FormattedIdentifierFromProvider ":" ["bucket", "name"]),
  ("aws_s3_bucket_notification", Entry.IdentifierFromProvider),
  ("aws_s3_bucket_object", Entry.IdentifierFromProvider),
  ("aws_s3_bucket_ownership_controls", Entry.IdentifierFromProvider),
  ("aws_s3_bucket_policy", Entry.IdentifierFromProvider),
  ("aws_s3_bucket_public_access_block", Entry.IdentifierFromProvider),
  ("aws_s3_bucket_replication_configuration", Entry.IdentifierFromProvider),
  ("aws_s3_bucket_request_payment_configuration", Entry.IdentifierFromProvider),
  ("aws_s3_bucket_server_side_encryption_configuration", Entry.IdentifierFromProvider),
  ("aws_s3_bucket_versioning", Entry.IdentifierFromProvider),
  ("aws_s3_bucket_website_configuration", Entry.IdentifierFromProvider),
  ("aws_s3_object", Entry.FormattedIdentifierFromProvider "/" ["bucket", "key"]),
  ("aws_cloudfront_cache_policy", Entry.IdentifierFromProvider),
  ("aws_cloudfront_distribution", Entry.IdentifierFromProvider),
  ("aws_cloudfront_field_level_encryption_config", Entry.IdentifierFromProvider),
  ("aws_cloudfront_field_level_encryption_profile", Entry.IdentifierFromProvider),
  ("aws_cloudfront_function", Entry.NameAsIdentifier),
  ("aws_cloudfront_key_group", Entry.IdentifierFromProvider),
  ("aws_cloudfront_monitoring_subscription", Entry.IdentifierFromProvider),
  ("aws_cloudfront_origin_access_identity", Entry.IdentifierFromProvider),
  ("aws_cloudfront_origin_request_policy", Entry.NameAsIdentifier),
  ("aws_cloudfront_public_key", Entry.IdentifierFromProvider),
  ("aws_cloudfront_realtime_log_config", Entry.IdentifierFromProvider),
  ("aws_cloudfront_response_headers_policy", Entry.IdentifierFromProvider),
  ("aws_resourcegroups_group", Entry.NameAsIdentifier),
  ("aws_docdb_cluster", Entry.ParameterAsIdentifier "cluster_identifier"),
  ("aws_docdb_global_cluster", Entry.IdentifierFromProvider),
  ("aws_docdb_cluster_instance", Entry.ParameterAsIdentifier "identifier"),
  ("aws_docdb_subnet_group", Entry.NameAsIdentifier),
  ("aws_efs_file_system", Entry.IdentifierFromProvider),
  ("aws_efs_mount_target", Entry.IdentifierFromProvider),
  ("aws_efs_access_point", Entry.IdentifierFromProvider),
  ("aws_efs_backup_policy", Entry.IdentifierFromProvider),
  ("aws_efs_file_system_policy", Entry.IdentifierFromProvider),
  ("aws_service_discovery_private_dns_namespace", Entry.IdentifierFromProvider),
  ("aws_service_discovery_public_dns_namespace", Entry.IdentifierFromProvider),
  ("aws_service_discovery_http_namespace", Entry.IdentifierFromProvider),
  ("aws_sqs_queue", Entry.IdentifierFromProvider),
  ("aws_sqs_queue_policy", Entry.IdentifierFromProvider),
  ("aws_secretsmanager_secret", Entry.IdentifierFromProvider),
  ("aws_secretsmanager_secret_version", Entry.IdentifierFromProvider),
  ("aws_secretsmanager_secret_rotation", Entry.IdentifierFromProvider),
  ("aws_secretsmanager_secret_policy", Entry.IdentifierFromProvider),
  ("aws_transfer_server", Entry.IdentifierFromProvider),
  ("aws_transfer_user", Entry.FormattedIdentifierUserDefinedNameLast "user_name" "/" ["server_id"]),
  ("aws_dynamodb_table", Entry.NameAsIdentifier),
  ("aws_dynamodb_global_table", Entry.NameAsIdentifier),
  ("aws_sns_topic",
    Entry.TemplatedStringAsIdentifier "name" "arn:aws:sns:\x7b\x7b .setup.configuration.region \x7d\x7d:\x7b\x7b .setup.client_metadata.account_id \x7d\x7d:\x7b\x7b .external_name \x7d\x7d"),
  ("aws_sns_topic_subscription", Entry.IdentifierFromProvider),
  ("aws_backup_framework", Entry.IdentifierFromProvider),
  ("aws_backup_global_settings", Entry.IdentifierFromProvider),
  ("aws_backup_plan", Entry.IdentifierFromProvider),
  ("aws_backup_vault", Entry.NameAsIdentifier),
  ("aws_backup_region_settings", Entry.IdentifierFromProvider),
  ("aws_backup_report_plan", Entry.IdentifierFromProvider),
  ("aws_backup_selection", Entry.IdentifierFromProvider),
  ("aws_backup_vault_lock_configuration", Entry.IdentifierFromProvider),
  ("aws_backup_vault_notifications", Entry.IdentifierFromProvider),
  ("aws_backup_vault_policy", Entry.IdentifierFromProvider),
  ("aws_grafana_workspace", Entry.IdentifierFromProvider),
  ("aws_grafana_role_association", Entry.IdentifierFromProvider),
  ("aws_grafana_workspace_saml_configuration",
    Entry.FormattedIdentifierFromProvider "" ["workspace_id"]),
  ("aws_gamelift_alias", Entry.IdentifierFromProvider),
  ("aws_gamelift_build", Entry.IdentifierFromProvider),
  ("aws_gamelift_fleet", Entry.IdentifierFromProvider),
  ("aws_gamelift_game_session_queue", Entry.NameAsIdentifier),
  ("aws_gamelift_script", Entry.IdentifierFromProvider),
  ("aws_kinesis_stream",
    Entry.TemplatedStringAsIdentifier "name" " arn:aws:kinesis:\x7b\x7b .setup.configuration.region \x7d\x7d:\x7b\x7b .setup.client_metadata.account_id \x7d\x7d:stream/\x7b\x7b .external_name \x7d\x7d"),
  ("aws_kinesis_stream_consumer", Entry.IdentifierFromProvider),
  ("aws_kinesis_analytics_application",
    Entry.TemplatedStringAsIdentifier "name" "arn:aws:kinesisanalytics:\x7b\x7b .setup.configuration.region \x7d\x7d:\x7b\x7b .setup.client_metadata.account_id \x7d\x7d:application/\x7b\x7b .external_name \x7d\x7d"),
  ("aws_kinesisanalyticsv2_application",
    Entry.TemplatedStringAsIdentifier "name" "arn:aws:kinesisanalytics:\x7b\x7b .setup.configuration.region \x7d\x7d:\x7b\x7b .setup.client_metadata.account_id \x7d\x7d:application/\x7b\x7b .external_name \x7d\x7d"),
  ("aws_kinesisanalyticsv2_application_snapshot",
    Entry.FormattedIdentifierUserDefinedNameLast "snapshot_name" "/" ["application_name"]),
  ("aws_kinesis_video_stream", Entry.IdentifierFromProvider),
  ("aws_kinesis_firehose_delivery_stream",
    Entry.TemplatedStringAsIdentifier "name" "arn:aws:firehose:\x7b\x7b .setup.configuration.region \x7d\x7d:\x7b\x7b .setup.client_metadata.account_id \x7d\x7d:deliverystream/\x7b\x7b .external_name \x7d\x7d"),
  ("aws_lakeformation_data_lake_settings", Entry.IdentifierFromProvider),
  ("aws_lakeformation_permissions", Entry.IdentifierFromProvider),
  ("aws_lakeformation_resource", Entry.IdentifierFromProvider),
  ("aws_lex_bot", Entry.NameAsIdentifier),
  ("aws_lex_bot_alias", Entry.FormattedIdentifierUserDefinedNameLast "name" ":" ["bot_name"]),
  ("aws_lex_intent", Entry.NameAsIdentifier),
  ("aws_lex_slot_type", Entry.NameAsIdentifier),
  ("aws_licensemanager_association",
    Entry.FormattedIdentifierFromProvider "," ["resource_arn", "license_configuration_arn"]),
  ("aws_licensemanager_license_configuration", Entry.IdentifierFromProvider),
  ("aws_lambda_alias",
    Entry.TemplatedStringAsIdentifier "name" "\x7b\x7b .parameters.function_name \x7d\x7d/\x7b\x7b .external_name \x7d\x7d"),
  ("aws_lambda_code_signing_config", Entry.IdentifierFromProvider),
  ("aws_lambda_event_source_mapping", Entry.IdentifierFromProvider),
  ("aws_lambda_function", Entry.ParameterAsIdentifier "function_name"),
  ("aws_lambda_function_event_invoke_config", Entry.IdentifierFromProvider),
  ("aws_lambda_function_url", Entry.lambdaFunctionURL),
  ("aws_lambda_invocation", Entry.IdentifierFromProvider),
  ("aws_lambda_layer_version", Entry.IdentifierFromProvider),
  ("aws_lambda_layer_version_permission", Entry.IdentifierFromProvider),
  ("aws_lambda_permission", Entry.IdentifierFromProvider),
  ("aws_lambda_provisioned_concurrency_config", Entry.IdentifierFromProvider),
  ("aws_signer_signing_profile", Entry.NameAsIdentifier),
  ("aws_athena_workgroup", Entry.NameAsIdentifier),
  ("aws_athena_data_catalog", Entry.NameAsIdentifier),
  ("aws_athena_database", Entry.NameAsIdentifier),
  ("aws_athena_named_query", Entry.IdentifierFromProvider),
  ("aws_cloudwatch_log_group", Entry.NameAsIdentifier),
  ("aws_cloudwatch_log_metric_filter",
    Entry.TemplatedStringAsIdentifier "name" "\x7b\x7b .parameters.log_group_name \x7d\x7d:\x7b\x7b .external_name \x7d\x7d"),
  ("aws_cloudwatch_query_definition", Entry.IdentifierFromProvider),
  ("aws_cloudwatch_log_stream", Entry.IdentifierFromProvider),
  ("aws_cloudwatch_log_resource_policy", Entry.ParameterAsIdentifier "policy_name"),
  ("aws_elb", Entry.NameAsIdentifier),
  ("aws_elb_attachment", Entry.IdentifierFromProvider),
  ("aws_iot_policy", Entry.NameAsIdentifier),
  ("aws_iot_thing", Entry.NameAsIdentifier),
  ("aws_msk_configuration", Entry.IdentifierFromProvider),
  ("aws_msk_cluster", Entry.IdentifierFromProvider),
  ("aws_ram_resource_share", Entry.IdentifierFromProvider),
  ("aws_redshift_cluster", Entry.ParameterAsIdentifier "cluster_identifier"),
  ("aws_sfn_activity",
    Entry.TemplatedStringAsIdentifier "name" "arn:aws:states:\x7b\x7b .setup.configuration.region \x7d\x7d:\x7b\x7b .setup.client_metadata.account_id \x7d\x7d:activity/\x7b\x7b .external_name \x7d\x7d"),
  ("aws_sfn_state_machine",
    Entry.TemplatedStringAsIdentifier "name" "arn:aws:states:\x7b\x7b .setup.configuration.region \x7d\x7d:\x7b\x7b .setup.client_metadata.account_id \x7d\x7d:stateMachine/\x7b\x7b .external_name \x7d\x7d"),
  ("aws_dax_cluster", Entry.ParameterAsIdentifier "cluster_name"),
  ("aws_dax_parameter_group", Entry.NameAsIdentifier),
  ("aws_dax_subnet_group", Entry.NameAsIdentifier),
  ("aws_cloudsearch_domain", Entry.NameAsIdentifier),
  ("aws_cloudsearch_domain_service_access_policy", Entry.IdentifierFromProvider),
  ("aws_api_gateway_api_key", Entry.IdentifierFromProvider),
  ("aws_api_gateway_client_certificate", Entry.IdentifierFromProvider),
  ("aws_api_gateway_rest_api", Entry.IdentifierFromProvider),
  ("aws_api_gateway_documentation_part", Entry.IdentifierFromProvider),
  ("aws_api_gateway_documentation_version",
    Entry.FormattedIdentifierFromProvider "/" ["rest_api_id", "version"]),
  ("aws_api_gateway_gateway_response",
    Entry.FormattedIdentifierFromProvider "/" ["rest_api_id", "response_type"]),
  ("aws_api_gateway_resource", Entry.IdentifierFromProvider),
  ("aws_api_gateway_method",
    Entry.FormattedIdentifierFromProvider "/" ["rest_api_id", "resource_id", "http_method"]),
  ("aws_api_gateway_method_response",
    Entry.FormattedIdentifierFromProvider "/" ["rest_api_id", "resource_id", "http_method", "status_code"]),
  ("aws_api_gateway_deployment", Entry.IdentifierFromProvider),
  ("aws_api_gateway_account", Entry.IdentifierFromProvider),
  ("aws_api_gateway_stage", Entry.FormattedIdentifierFromProvider "/" ["rest_api_id", "stage_name"]),
  ("aws_api_gateway_integration",
    Entry.FormattedIdentifierFromProvider "/" ["rest_api_id", "resource_id", "http_method"]),
  ("aws_api_gateway_integration_response",
    Entry.FormattedIdentifierFromProvider "/" ["rest_api_id", "resource_id", "http_method", "status_code"]),
  ("aws_api_gateway_method_settings",
    Entry.FormattedIdentifierFromProvider "/" ["rest_api_id", "stage_name", "method_path"]),
  ("aws_api_gateway_model", Entry.IdentifierFromProvider),
  ("aws_api_gateway_request_validator", Entry.IdentifierFromProvider),
  ("aws_api_gateway_rest_api_policy", Entry.FormattedIdentifierFromProvider "" ["rest_api_id"]),
  ("aws_api_gateway_authorizer", Entry.IdentifierFromProvider),
  ("aws_api_gateway_base_path_mapping", Entry.IdentifierFromProvider),
  ("aws_api_gateway_domain_name", Entry.IdentifierFromProvider),
  ("aws_api_gateway_usage_plan", Entry.IdentifierFromProvider),
  ("aws_api_gateway_usage_plan_key", Entry.IdentifierFromProvider),
  ("aws_api_gateway_vpc_link", Entry.IdentifierFromProvider),
  ("aws_opensearch_domain", Entry.IdentifierFromProvider),
  ("aws_opensearch_domain_policy", Entry.IdentifierFromProvider),
  ("aws_opensearch_domain_saml_options", Entry.IdentifierFromProvider),
  ("aws_cloudwatch_composite_alarm", Entry.ParameterAsIdentifier "alarm_name"),
  ("aws_cloudwatch_dashboard", Entry.ParameterAsIdentifier "dashboard_name"),
  ("aws_cloudwatch_metric_alarm", Entry.ParameterAsIdentifier "alarm_name"),
  ("aws_cloudwatch_metric_stream", Entry.IdentifierFromProvider),
  ("aws_appautoscaling_scheduled_action", Entry.IdentifierFromProvider),
  ("aws_appautoscaling_policy",
    Entry.TemplatedStringAsIdentifier "name" "\x7b\x7b .parameters.service_namespace \x7d\x7d/\x7b\x7b .parameters.resource_id \x7d\x7d/\x7b\x7b .parameters.scalable_dimension \x7d\x7d/\x7b\x7b .external_name \x7d\x7d"),
  ("aws_appautoscaling_target",
    Entry.TemplatedStringAsIdentifierWithNoName "\x7b\x7b .parameters.service_namespace \x7d\x7d/\x7b\x7b .parameters.resource_id \x7d\x7d/\x7b\x7b .parameters.scalable_dimension \x7d\x7d"),
  ("aws_codecommit_repository", Entry.ParameterAsIdentifier "repository_name"),
  ("aws_codecommit_approval_rule_template", Entry.NameAsIdentifier),
  ("aws_codecommit_approval_rule_template_association",
    Entry.TemplatedStringAsIdentifier "" "\x7b\x7b .parameters.approval_rule_template_name \x7d\x7d,\x7b\x7b .parameters.repository_name \x7d\x7d"),
  ("aws_codecommit_trigger", Entry.IdentifierFromProvider),
  ("aws_codedeploy_app",
    Entry.TemplatedStringAsIdentifier "name" "\x7b\x7b .parameters.application_id \x7d\x7d:\x7b\x7b .external_name \x7d\x7d"),
  ("aws_codedeploy_deployment_config", Entry.ParameterAsIdentifier "deployment_config_name"),
  ("aws_codedeploy_deployment_group",
    Entry.TemplatedStringAsIdentifier "deployment_group_name" "\x7b\x7b .parameters.app_name \x7d\x7d:\x7b\x7b .external_name \x7d\x7d"),
  ("aws_codepipeline", Entry.NameAsIdentifier),
  ("aws_codepipeline_webhook",
    Entry.TemplatedStringAsIdentifier "name" "arn:aws:codepipeline:\x7b\x7b .setup.configuration.region \x7d\x7d:\x7b\x7b .setup.client_metadata.account_id \x7d\x7d:webhook:\x7b\x7b .external_name \x7d\x7d"),
  ("aws_codestarconnections_connection", Entry.IdentifierFromProvider),
  ("aws_codestarconnections_host", Entry.IdentifierFromProvider),
  ("aws_codestarnotifications_notification_rule", Entry.IdentifierFromProvider),
  ("aws_connect_bot_association",
    Entry.TemplatedStringAsIdentifier "" "\x7b\x7b .parameters.instance_id \x7d\x7d:\x7b\x7b (index .parameters.lex_bot 0).name \x7d\x7d:\x7b\x7b (index .parameters.lex_bot 0).lex_region \x7d\x7d"),
  ("aws_connect_contact_flow", Entry.IdentifierFromProvider),
  ("aws_connect_contact_flow_module", Entry.IdentifierFromProvider),
  ("aws_connect_hours_of_operation", Entry.IdentifierFromProvider),
  ("aws_connect_instance", Entry.IdentifierFromProvider),
  ("aws_connect_lambda_function_association",
    Entry.TemplatedStringAsIdentifier "" "\x7b\x7b .parameters.instance_id \x7d\x7d,\x7b\x7b .parameters.function_arn \x7d\x7d"),
  ("aws_connect_queue", Entry.IdentifierFromProvider),
  ("aws_connect_quick_connect", Entry.IdentifierFromProvider),
  ("aws_connect_routing_profile", Entry.IdentifierFromProvider),
  ("aws_connect_security_profile", Entry.IdentifierFromProvider),
  ("aws_connect_user_hierarchy_structure", Entry.IdentifierFromProvider),
  ("aws_apprunner_auto_scaling_configuration_version", Entry.IdentifierFromProvider),
  ("aws_apprunner_connection", Entry.ParameterAsIdentifier "connection_name"),
  ("aws_apprunner_service", Entry.IdentifierFromProvider),
  ("aws_apprunner_vpc_connector", Entry.IdentifierFromProvider),
  ("aws_appstream_directory_config", Entry.IdentifierFromProvider),
  ("aws_appstream_fleet", Entry.IdentifierFromProvider),
  ("aws_appstream_fleet_stack_association",
    Entry.TemplatedStringAsIdentifier "" "\x7b\x7b .parameters.fleet_name \x7d\x7d/\x7b\x7b .parameters.stack_name\x7d\x7d"),
  ("aws_appstream_image_builder", Entry.NameAsIdentifier),
  ("aws_appstream_stack", Entry.IdentifierFromProvider),
  ("aws_appstream_user",
    Entry.TemplatedStringAsIdentifier "user_name" "\x7b\x7b .external_name \x7d\x7d/\x7b\x7b .parameters.authentication_type \x7d\x7d"),
  ("aws_appstream_user_stack_association",
    Entry.TemplatedStringAsIdentifier "" "\x7b\x7b .parameters.user_name \x7d\x7d/\x7b\x7b .parameters.authentication_type \x7d\x7d/\x7b\x7b .parameters.stack_name \x7d\x7d/"),
  ("aws_appmesh_mesh", Entry.NameAsIdentifier),
  ("aws_appmesh_virtual_node", Entry.IdentifierFromProvider),
  ("aws_appmesh_virtual_router", Entry.IdentifierFromProvider),
  ("aws_appmesh_virtual_gateway", Entry.IdentifierFromProvider),
  ("aws_appmesh_virtual_service", Entry.IdentifierFromProvider),
  ("aws_appmesh_gateway_route", Entry.IdentifierFromProvider),
  ("aws_appmesh_route", Entry.IdentifierFromProvider),
  ("aws_config_config_rule", Entry.NameAsIdentifier),
  ("aws_config_configuration_aggregator", Entry.NameAsIdentifier),
  ("aws_config_configuration_recorder", Entry.NameAsIdentifier),
  ("aws_config_configuration_recorder_status", Entry.NameAsIdentifier),
  ("aws_config_conformance_pack", Entry.NameAsIdentifier),
  ("aws_config_delivery_channel", Entry.NameAsIdentifier),
  ("aws_config_remediation_configuration", Entry.ParameterAsIdentifier "config_rule_name"),
  ("aws_appsync_api_cache", Entry.IdentifierFromProvider),
  ("aws_appsync_api_key",
    Entry.TemplatedStringAsIdentifierWithNoName "\x7b\x7b .parameters.api_id \x7d\x7d:\x7b\x7b .external_name \x7d\x7d"),
  ("aws_appsync_datasource",
    Entry.TemplatedStringAsIdentifier "name" "\x7b\x7b .parameters.api_id \x7d\x7d-\x7b\x7b .external_name \x7d\x7d"),
  ("aws_appsync_function", Entry.IdentifierFromProvider),
  ("aws_appsync_graphql_api", Entry.IdentifierFromProvider),
  ("aws_appsync_resolver",
    Entry.TemplatedStringAsIdentifier "" "\x7b\x7b .parameters.api_id \x7d\x7d-\x7b\x7b .parameters.type \x7d\x7d-\x7b\x7b .parameters.field \x7d\x7d"),
  ("aws_accessanalyzer_analyzer", Entry.ParameterAsIdentifier "analyzer_name"),
  ("aws_account_alternate_contact",
    Entry.TemplatedStringAsIdentifier "" "\x7b\x7b .parameters.alternate_contact_type \x7d\x7d"),
  ("aws_amplify_app", Entry.IdentifierFromProvider),
  ("aws_amplify_branch",
    Entry.TemplatedStringAsIdentifier "branch_name" "\x7b\x7b .parameters.app_id \x7d\x7d/\x7b\x7b .external_name \x7d\x7d"),
  ("aws_amplify_backend_environment",
    Entry.TemplatedStringAsIdentifier "environment_name" "\x7b\x7b .parameters.app_id \x7d\x7d/\x7b\x7b .external_name \x7d\x7d"),
  ("aws_amplify_webhook", Entry.IdentifierFromProvider),
  ("aws_cur_report_definition", Entry.ParameterAsIdentifier "report_name"),
  ("aws_dataexchange_data_set", Entry.IdentifierFromProvider),
  ("aws_dataexchange_revision", Entry.IdentifierFromProvider),
  ("aws_datapipeline_pipeline", Entry.IdentifierFromProvider),
  ("aws_detective_graph", Entry.IdentifierFromProvider),
  ("aws_detective_member", Entry.IdentifierFromProvider),
  ("aws_detective_invitation_accepter", Entry.IdentifierFromProvider),
  ("aws_devicefarm_project", Entry.IdentifierFromProvider),
  ("aws_devicefarm_instance_profile", Entry.IdentifierFromProvider),
  ("aws_devicefarm_device_pool", Entry.IdentifierFromProvider),
  ("aws_devicefarm_network_profile", Entry.IdentifierFromProvider),
  ("aws_devicefarm_upload", Entry.IdentifierFromProvider),
  ("aws_devicefarm_test_grid_project", Entry.IdentifierFromProvider),
  ("aws_organizations_account", Entry.IdentifierFromProvider),
  ("aws_organizations_delegated_administrator",
    Entry.FormattedIdentifierFromProvider "/" ["account_id", "service_principal"]),
  ("aws_organizations_organization", Entry.IdentifierFromProvider),
  ("aws_organizations_organizational_unit", Entry.IdentifierFromProvider),
  ("aws_organizations_policy", Entry.IdentifierFromProvider),
  ("aws_organizations_policy_attachment",
    Entry.FormattedIdentifierFromProvider ":" ["target_id", "policy_id"]),
  ("aws_batch_scheduling_policy",
    Entry.TemplatedStringAsIdentifier "name" "arn:aws:batch:\x7b\x7b .setup.configuration.region \x7d\x7d:\x7b\x7b .setup.client_metadata.account_id \x7d\x7d:scheduling-policy/\x7b\x7b .external_name \x7d\x7d"),
  ("aws_budgets_budget",
    Entry.TemplatedStringAsIdentifier "name" "\x7b\x7b .setup.client_metadata.account_id \x7d\x7d:\x7b\x7b .external_name \x7d\x7d"),
  ("aws_budgets_budget_action", Entry.IdentifierFromProvider),
  ("aws_chime_voice_connector", Entry.NameAsIdentifier),
  ("aws_chime_voice_connector_group", Entry.NameAsIdentifier),
  ("aws_chime_voice_connector_logging", Entry.IdentifierFromProvider),
  ("aws_chime_voice_connector_origination", Entry.IdentifierFromProvider),
  ("aws_chime_voice_connector_streaming", Entry.IdentifierFromProvider),
  ("aws_chime_voice_connector_termination", Entry.IdentifierFromProvider),
  ("aws_chime_voice_connector_termination_credentials", Entry.IdentifierFromProvider),
  ("aws_cloud9_environment_ec2", Entry.IdentifierFromProvider),
  ("aws_cloud9_environment_membership",
    Entry.TemplatedStringAsIdentifier "" "\x7b\x7b .parameters.environment_id \x7d\x7d#\x7b\x7b .parameters.user_arn \x7d\x7d"),
  ("aws_cloudcontrolapi_resource", Entry.IdentifierFromProvider)
]

/-- Modelled from the spec: the constant `common.VersionV1Beta1`, which is declared
outside the given sources; the comment of `ExternalNameConfigurations` names its value,
`v1beta1`. -/
def VersionV1Beta1 : String := "v1beta1"

/-- The fields of `config.Resource` that `ExternalNameConfigurations` reads or writes;
all its further fields are kept together in `other`.  The type `E` is the type of the
strategy values (`config.ExternalName`). -/
structure Resource (E R : Type) where
  Name : String
  Version : String
  ExternalName : E
  other : R

/-- The resource option returned by `ExternalNameConfigurations()`, as a function from
the resource before the call to the resource after it; `configs` is the table
`ExternalNameConfigs` that the option reads. -/
def ExternalNameConfigurations {E R : Type} (configs : List (String × E))
    (r : Resource E R) : Resource E R :=
  match configs.lookup r.Name with
  | some e => { r with Version := VersionV1Beta1, ExternalName := e }
  | none => r

/-! ## Strategy values and the constructors that copy a base value -/

/-- Modelled from the spec: the strategy value `config.ExternalName` of upjet, whose
declaration is outside the given sources.  It carries the initializer
(`SetIdentifierArgumentFn`, the bag after the call), the reverse function
(`GetExternalNameFn`), the forward function (`GetIDFn`), the `OmittedFields`, and the
flag `DisableNameInitializer` (the name is not chosen by the user); `other` stands for
any further field of the struct. -/
structure ExternalName (Ω : Type) where
  SetIdentifierArgumentFn : Bag → String → Bag
  GetExternalNameFn : Bag → Result String
  GetIDFn : String → Bag → Bag → Result String
  OmittedFields : List String
  DisableNameInitializer : Bool
  other : Ω

/-- The constructor `FormattedIdentifierFromProvider(separator, keys...)`.  The first
argument is the value of the package variable `config.IdentifierFromProvider` before
the call; `e := config.IdentifierFromProvider` copies it, the assignment to `e.GetIDFn`
writes to the copy.  The result is the returned strategy together with the value of
the package variable after the call. -/
def FormattedIdentifierFromProvider {Ω : Type} (IdentifierFromProvider : ExternalName Ω)
    (separator : String) (keys : List String) : ExternalName Ω × ExternalName Ω :=
  let e := IdentifierFromProvider
  let e := { e with GetIDFn := FormattedIdentifierFromProvider.GetIDFn separator keys }
  (e, IdentifierFromProvider)

/-- The constructor `TemplatedStringAsIdentifierWithNoName(tmpl)`; the first argument is
the constructor `config.TemplatedStringAsIdentifier` of upjet, which it calls with the
empty name field. -/
def TemplatedStringAsIdentifierWithNoName {Ω : Type}
    (TemplatedStringAsIdentifier : String → String → ExternalName Ω) (tmpl : String) :
    ExternalName Ω :=
  let e := TemplatedStringAsIdentifier "" tmpl
  { e with DisableNameInitializer := true }

/-- The template argument of a table entry built with `TemplatedStringAsIdentifier` or
`TemplatedStringAsIdentifierWithNoName`. -/
def Entry.template? : Entry → Option String
  | .TemplatedStringAsIdentifier _ tmpl => some tmpl
  | .TemplatedStringAsIdentifierWithNoName tmpl => some tmpl
  | _ => none

/-! ## Specification vocabulary for the split tokens -/

/-- A separator is unbordered when no proper non-empty beginning of it is also its
ending, so that two occurrences of it in a text never overlap.  Every separator of
one character is unbordered; `"aa"` and `"aba"` are not. -/
def Unbordered (sep : List Char) : Prop :=
  ∀ k, k < sep.length → 0 < k → sep.take k ≠ sep.drop (sep.length - k)

instance (sep : List Char) : Decidable (Unbordered sep) := by
  unfold Unbordered; infer_instance

/-- The text `r` is what precedes the first occurrence of `sep` in `s`, or all of `s`
when `sep` does not occur in `s`. -/
def BeforeFirst (sep s r : List Char) : Prop :=
  (¬ sep <:+: s ∧ r = s) ∨
  (∃ q, s = r ++ sep ++ q ∧ ∀ p1 q1, s = p1 ++ sep ++ q1 → r.length ≤ p1.length)

/-- The text `r` is what follows the last occurrence of `sep` in `s`, or all of `s`
when `sep` does not occur in `s`. -/
def AfterLast (sep s r : List Char) : Prop :=
  (¬ sep <:+: s ∧ r = s) ∨
  (∃ p, s = p ++ sep ++ r ∧ ∀ p1 q1, s = p1 ++ sep ++ q1 → p1.length ≤ p.length)

/-- The result `res` is the error of the first listed key, in key order, that is
absent or does not hold a string: every key before it holds a string, and `res` is the
missing-field error when the key is absent and the type error (`key ++ mismatch`) when
the key holds a value that is not a string. -/
def FirstFailure (mismatch : String) (keys : List String) (parameters : Bag)
    (res : Result String) : Prop :=
  ∃ front k back, keys = front ++ k :: back ∧
    (∀ k1 ∈ front, ∃ s, parameters.lookup k1 = some (.string s)) ∧
    ((parameters.lookup k = none ∧ res = .error (k ++ " cannot be empty")) ∨
     (∃ v, parameters.lookup k = some v ∧ (∀ s, v ≠ .string s) ∧
        res = .error (k ++ mismatch)))

/-- The key is absent from the bag or bound to the nil interface, the two cases in
which the index expression `m[key]` is nil. -/
def Absent (m : Bag) (key : String) : Prop :=
  m.lookup key = none ∨ m.lookup key = some .null

/-- The mutually exclusive destination fields of `aws_route`, in the order in which the
`switch` of `route()` tries them. -/
def destinationFields : List String :=
  ["destination_cidr_block", "destination_ipv6_cidr_block", "destination_prefix_list_id"]

/-! ## Specification vocabulary for the identifier templates -/

/-- The state of the scan for placeholders: in the literal text, after one opening
brace, inside a placeholder (with the text read so far, last character first), or
inside a placeholder after one closing brace. -/
inductive Scan where
  | text : Scan
  | opening : Scan
  | inside (acc : List Char) : Scan
  | closing (acc : List Char) : Scan

/-- The placeholders of a template: the texts between two opening braces and the next
two closing braces. -/
def placeholders : List Char → Scan → List (List Char)
  | [], _ => []
  | c :: cs, .text =>
    if c = '\x7b' then placeholders cs .opening else placeholders cs .text
  | c :: cs, .opening =>
    if c = '\x7b' then placeholders cs (.inside []) else placeholders cs .text
  | c :: cs, .inside acc =>
    if c = '\x7d' then placeholders cs (.closing acc)
    else placeholders cs (.inside (c :: acc))
  | c :: cs, .closing acc =>
    if c = '\x7d' then acc.reverse :: placeholders cs .text
    else placeholders cs (.inside (c :: '\x7d' :: acc))

/-- The context paths of a placeholder: the maximal runs of letters, digits, `_` and `.`
that begin with `.` at the start of the placeholder, after a blank or after `(`.  A
field name that follows `)` selects from a computed value and is no context path.  The
arguments are the character before the text and the path that is being read. -/
def contextPaths : List Char → Char → Option (List Char) → List (List Char)
  | [], _, none => []
  | [], _, some acc => [acc.reverse]
  | c :: cs, before, none =>
    if c = '.' ∧ (before = ' ' ∨ before = '(') then contextPaths cs c (some [c])
    else contextPaths cs c none
  | c :: cs, _, some acc =>
    if c.isAlphanum ∨ c = '_' ∨ c = '.' then contextPaths cs c (some (c :: acc))
    else acc.reverse :: contextPaths cs c none

/-- The context roots that a template may read. -/
def supportedRoots : List String :=
  [".parameters", ".setup.configuration", ".setup.client_metadata", ".external_name"]

/-- A context path starts with a supported root: it is the root or continues it with a
further field. -/
def startsWithSupportedRoot (path : List Char) : Bool :=
  supportedRoots.any fun root => path = root.data ∨ (root.data ++ ['.']) <+: path

/-- The context paths of all placeholders of a template. -/
def templatePaths (tmpl : String) : List (List Char) :=
  (placeholders tmpl.data .text).flatMap fun ph => contextPaths ph ' ' none

/-- The context paths of a template that do not start with a supported root. -/
def unsupportedPaths (tmpl : String) : List String :=
  ((templatePaths tmpl).filter fun p => !startsWithSupportedRoot p).map String.mk

/-- The table entries whose template reads a context path outside the supported roots,
each with the offending paths. -/
def unsupportedTemplates (configs : List (String × Entry)) :
    List (String × List String) :=
  configs.filterMap fun kv =>
    match kv.2.template? with
    | some tmpl =>
      if unsupportedPaths tmpl = [] then none else some (kv.1, unsupportedPaths tmpl)
    | none => none

/-! ## Lemmas on `strings.Join` -/

theorem foldl_sep_append (sep x y : String) (rest : List String) :
    rest.foldl (fun b s => b ++ sep ++ s) (x ++ y) =
      x ++ rest.foldl (fun b s => b ++ sep ++ s) y := by
  induction rest generalizing y with
  | nil => rfl
  | cons a rest ih =>
    simp only [List.foldl_cons]
    rw [String.append_assoc, String.append_assoc, ih, String.append_assoc]

theorem Join_cons_cons (a b : String) (rest : List String) (sep : String) :
    Join (a :: b :: rest) sep = a ++ sep ++ Join (b :: rest) sep := by
  simp only [Join, List.foldl_cons]
  rw [String.append_assoc, foldl_sep_append, foldl_sep_append, String.append_assoc]

theorem Join_append_singleton (a : String) (rest : List String) (n sep : String) :
    Join ((a :: rest) ++ [n]) sep = Join (a :: rest) sep ++ sep ++ n := by
  simp only [Join, List.cons_append, List.foldl_append, List.foldl_cons, List.foldl_nil]

/-! ## Lemmas on the key loop -/

theorem keyValues_ok (mismatch : String) (parameters : Bag) (vals : String → String)
    (keys : List String)
    (h : ∀ k ∈ keys, parameters.lookup k = some (.string (vals k))) :
    keyValues mismatch parameters keys = .ok (keys.map vals) := by
  induction keys with
  | nil => rfl
  | cons k ks ih =>
    have hk := h k (List.mem_cons_self k ks)
    have hks := ih (fun k1 h1 => h k1 (List.mem_cons_of_mem k h1))
    simp only [keyValues, hk, hks, List.map_cons]

theorem keyValues_missing (mismatch : String) (parameters : Bag)
    (front back : List String) (k : String)
    (hfront : ∀ k1 ∈ front, ∃ s, parameters.lookup k1 = some (.string s))
    (hk : parameters.lookup k = none) :
    keyValues mismatch parameters (front ++ k :: back) =
      .error (k ++ " cannot be empty") := by
  induction front with
  | nil => simp only [List.nil_append, keyValues, hk]
  | cons a front ih =>
    obtain ⟨s, hs⟩ := hfront a (List.mem_cons_self a front)
    have h1 := ih (fun k1 h1 => hfront k1 (List.mem_cons_of_mem a h1))
    simp only [List.cons_append, keyValues, hs, List.append_eq, h1]

theorem keyValues_mismatch (mismatch : String) (parameters : Bag)
    (front back : List String) (k : String) (v : Value)
    (hfront : ∀ k1 ∈ front, ∃ s, parameters.lookup k1 = some (.string s))
    (hk : parameters.lookup k = some v) (hv : ∀ s, v ≠ .string s) :
    keyValues mismatch parameters (front ++ k :: back) = .error (k ++ mismatch) := by
  induction front with
  | nil =>
    cases v with
    | string s => exact absurd rfl (hv s)
    | _ => simp only [List.nil_append, keyValues, hk]
  | cons a front ih =>
    obtain ⟨s, hs⟩ := hfront a (List.mem_cons_self a front)
    have h1 := ih (fun k1 h1 => hfront k1 (List.mem_cons_of_mem a h1))
    simp only [List.cons_append, keyValues, hs, List.append_eq, h1]

/-- The loop stops at the first key that is absent or does not hold a string, and it
succeeds exactly when there is no such key. -/
theorem keyValues_cases (mismatch : String) (parameters : Bag) (keys : List String) :
    (∃ vals, keyValues mismatch parameters keys = .ok vals ∧
        ∀ k ∈ keys, ∃ s, parameters.lookup k = some (.string s)) ∨
    (∃ front k back, keys = front ++ k :: back ∧
        (∀ k1 ∈ front, ∃ s, parameters.lookup k1 = some (.string s)) ∧
        ((parameters.lookup k = none ∧
            keyValues mismatch parameters keys = .error (k ++ " cannot be empty")) ∨
         (∃ v, parameters.lookup k = some v ∧ (∀ s, v ≠ .string s) ∧
            keyValues mismatch parameters keys = .error (k ++ mismatch)))) := by
  induction keys with
  | nil => exact Or.inl ⟨[], rfl, fun k hk => absurd hk (List.not_mem_nil k)⟩
  | cons a keys ih =>
    cases ha : parameters.lookup a with
    | none =>
      exact Or.inr ⟨[], a, keys, rfl, fun k hk => absurd hk (List.not_mem_nil k),
        Or.inl ⟨ha, keyValues_missing mismatch parameters [] keys a
          (fun k hk => absurd hk (List.not_mem_nil k)) ha⟩⟩
    | some v =>
      by_cases hv : ∃ s, v = .string s
      · obtain ⟨s, rfl⟩ := hv
        rcases ih with ⟨vals, hvals, hall⟩ | ⟨front, k, back, hkeys, hfront, hres⟩
        · refine Or.inl ⟨s :: vals, by simp only [keyValues, ha, hvals], ?_⟩
          intro k hk
          rcases List.mem_cons.mp hk with rfl | hk
          · exact ⟨s, ha⟩
          · exact hall k hk
        · have hfront1 : ∀ k1 ∈ a :: front,
              ∃ s, parameters.lookup k1 = some (.string s) := by
            intro k1 hk1
            rcases List.mem_cons.mp hk1 with rfl | hk1
            · exact ⟨s, ha⟩
            · exact hfront k1 hk1
          refine Or.inr ⟨a :: front, k, back, by rw [hkeys]; rfl, hfront1, ?_⟩
          rcases hres with ⟨hk, _⟩ | ⟨w, hk, hw, _⟩
          · exact Or.inl ⟨hk, hkeys ▸ keyValues_missing mismatch parameters
              (a :: front) back k hfront1 hk⟩
          · exact Or.inr ⟨w, hk, hw, hkeys ▸ keyValues_mismatch mismatch parameters
              (a :: front) back k w hfront1 hk hw⟩
      · have hv1 : ∀ s, v ≠ .string s := fun s hs => hv ⟨s, hs⟩
        exact Or.inr ⟨[], a, keys, rfl, fun k hk => absurd hk (List.not_mem_nil k),
          Or.inr ⟨v, ha, hv1, keyValues_mismatch mismatch parameters [] keys a v
            (fun k hk => absurd hk (List.not_mem_nil k)) ha hv1⟩⟩

/-- When some listed key is absent, the key loop ends in the error of the first key
that is absent or not a string. -/
theorem keyValues_absent (mismatch : String) (parameters : Bag) (keys : List String)
    (habs : ∃ k ∈ keys, parameters.lookup k = none) :
    ∃ front k back, keys = front ++ k :: back ∧
      (∀ k1 ∈ front, ∃ s, parameters.lookup k1 = some (.string s)) ∧
      ((parameters.lookup k = none ∧
          keyValues mismatch parameters keys = .error (k ++ " cannot be empty")) ∨
       (∃ v, parameters.lookup k = some v ∧ (∀ s, v ≠ .string s) ∧
          keyValues mismatch parameters keys = .error (k ++ mismatch))) := by
  rcases keyValues_cases mismatch parameters keys with ⟨_, _, hall⟩ | h
  · obtain ⟨k, hk, hnone⟩ := habs
    obtain ⟨s, hs⟩ := hall k hk
    rw [hnone] at hs
    exact absurd hs (by simp)
  · exact h

/-! ## Lemmas on `strings.Index` and the split loop -/

theorem Index_none (s sep : List Char) (h : Index s sep = none) : ¬ sep <:+: s := by
  induction s with
  | nil =>
    simp only [Index] at h
    split at h
    · cases h
    · rename_i hne
      exact fun hin => hne (List.infix_nil.mp hin)
  | cons c cs ih =>
    simp only [Index] at h
    split at h
    · cases h
    · rename_i hp
      have h1 : Index cs sep = none := by simpa using h
      rw [List.infix_cons_iff]
      rintro (h2 | h2)
      · exact hp h2
      · exact ih h1 h2

theorem Index_some (s sep : List Char) (m : Nat) (h : Index s sep = some m) :
    s = s.take m ++ sep ++ s.drop (m + sep.length) ∧ m ≤ s.length ∧
      ∀ p1 q1, s = p1 ++ sep ++ q1 → m ≤ p1.length := by
  induction s generalizing m with
  | nil =>
    simp only [Index] at h
    split at h
    · rename_i he
      cases h
      subst he
      simp
    · cases h
  | cons c cs ih =>
    simp only [Index] at h
    split at h
    · rename_i hp
      cases h
      obtain ⟨t, ht⟩ := hp
      refine ⟨?_, Nat.zero_le _, fun _ _ _ => Nat.zero_le _⟩
      rw [← ht]
      simp
    · rename_i hp
      obtain ⟨m1, hm1, rfl⟩ := Option.map_eq_some'.mp h
      obtain ⟨heq, hle, hmin⟩ := ih m1 hm1
      refine ⟨?_, by simpa using hle, ?_⟩
      · have e : m1 + 1 + sep.length = (m1 + sep.length) + 1 := by omega
        rw [e, List.take_succ_cons, List.drop_succ_cons, List.cons_append,
          List.cons_append, ← heq]
      · intro p1 q1 hpq
        cases p1 with
        | nil => exact absurd ⟨q1, by simpa using hpq.symm⟩ hp
        | cons a p1 =>
          simp only [List.cons_append, List.cons.injEq] at hpq
          have := hmin p1 q1 hpq.2
          simpa using this

/-- Two occurrences of an unbordered separator in one text do not overlap. -/
theorem occurrences_disjoint (sep p1 q1 p2 q2 : List Char) (hu : Unbordered sep)
    (h : p1 ++ sep ++ q1 = p2 ++ sep ++ q2) (hlt : p1.length < p2.length) :
    p1.length + sep.length ≤ p2.length := by
  by_contra hc
  have hc1 : p2.length < p1.length + sep.length := Nat.lt_of_not_le hc
  have hp1 : p1 <+: p2 ++ sep ++ q2 := ⟨sep ++ q1, by rw [← h, List.append_assoc]⟩
  have hp2 : p2 <+: p2 ++ sep ++ q2 := ⟨sep ++ q2, by rw [List.append_assoc]⟩
  obtain ⟨x, rfl⟩ := List.prefix_of_prefix_length_le hp1 hp2 (Nat.le_of_lt hlt)
  rw [List.length_append] at hlt hc1
  have e1 : sep ++ q1 = x ++ (sep ++ q2) := by
    have h1 : p1 ++ (sep ++ q1) = p1 ++ (x ++ (sep ++ q2)) := by
      simpa only [List.append_assoc] using h
    exact List.append_cancel_left h1
  have hx : x <+: sep ++ q1 := ⟨sep ++ q2, e1.symm⟩
  obtain ⟨y, hy⟩ := List.prefix_of_prefix_length_le hx (List.prefix_append sep q1)
    (by omega)
  have e2 : y ++ q1 = sep ++ q2 := by
    have h2 : x ++ (y ++ q1) = x ++ (sep ++ q2) := by
      rw [← List.append_assoc, hy]
      exact e1
    exact List.append_cancel_left h2
  have hlen : x.length + y.length = sep.length := by
    rw [← List.length_append, hy]
  have hy1 : y <+: sep := List.prefix_of_prefix_length_le ⟨q1, e2⟩
    (List.prefix_append sep q2) (by omega)
  have hy2 : y = sep.take y.length := List.prefix_iff_eq_take.mp hy1
  have hy3 : sep.drop x.length = y := by
    rw [← hy]
    exact List.drop_left x y
  apply hu y.length (by omega) (by omega)
  have e3 : sep.length - y.length = x.length := by omega
  rw [e3, hy3]
  exact hy2.symm

theorem genSplit_ne_nil (sep : List Char) (n : Nat) (s : List Char) :
    genSplit sep n s ≠ [] := by
  cases n with
  | zero => simp [genSplit]
  | succ n =>
    simp only [genSplit]
    split <;> simp

/-- Once the bound reaches the length of the text, a larger bound does not change the
tokens. -/
theorem genSplit_fuel (sep : List Char) (hsep : sep ≠ []) (n m : Nat) (s : List Char)
    (hn : s.length ≤ n) (hm : s.length ≤ m) : genSplit sep n s = genSplit sep m s := by
  induction n generalizing m s with
  | zero =>
    have hs : s = [] := List.length_eq_zero.mp (Nat.le_zero.mp hn)
    subst hs
    cases m with
    | zero => rfl
    | succ m => simp [genSplit, Index, hsep]
  | succ n ih =>
    cases m with
    | zero =>
      have hs : s = [] := List.length_eq_zero.mp (Nat.le_zero.mp hm)
      subst hs
      simp [genSplit, Index, hsep]
    | succ m =>
      simp only [genSplit]
      cases hi : Index s sep with
      | none => rfl
      | some k =>
        have hpos : 0 < sep.length := List.length_pos.mpr hsep
        have hlen : (s.drop (k + sep.length)).length ≤ s.length - 1 := by
          rw [List.length_drop]
          omega
        have hs : 0 < s.length := by
          have := (Index_some s sep k hi).1
          have h2 := congrArg List.length this
          simp only [List.length_append] at h2
          omega
        simp only
        rw [ih m _ (by omega) (by omega)]

/-- The first token of the split is the text before the first occurrence of the
separator. -/
theorem genSplit_head (sep : List Char) (hsep : sep ≠ []) (n : Nat) (s : List Char)
    (hn : s.length ≤ n) :
    ∃ r, (genSplit sep n s).head? = some r ∧ BeforeFirst sep s r := by
  have hnone : Index s sep = none → BeforeFirst sep s s :=
    fun h => Or.inl ⟨Index_none s sep h, rfl⟩
  cases n with
  | zero =>
    have hs : s = [] := List.length_eq_zero.mp (Nat.le_zero.mp hn)
    subst hs
    exact ⟨[], rfl, hnone (by simp [Index, hsep])⟩
  | succ n =>
    simp only [genSplit]
    cases hi : Index s sep with
    | none => exact ⟨s, rfl, hnone hi⟩
    | some m =>
      obtain ⟨heq, hle, hmin⟩ := Index_some s sep m hi
      refine ⟨s.take m, rfl, Or.inr ⟨s.drop (m + sep.length), heq, ?_⟩⟩
      intro p1 q1 hpq
      exact Nat.le_trans (List.length_take_le m s) (hmin p1 q1 hpq)

theorem drop_occurrence (p sep q : List Char) (k : Nat) (hk : k ≤ p.length) :
    (p ++ sep ++ q).drop k = p.drop k ++ sep ++ q := by
  rw [List.append_assoc, List.drop_append_of_le_length hk, List.append_assoc]

/-- The last token of the split is an ending of the text without the separator in it;
for an unbordered separator it is the text after the last occurrence of the
separator. -/
theorem genSplit_getLast (sep : List Char) (hsep : sep ≠ []) (n : Nat) (s : List Char)
    (hn : s.length ≤ n) :
    ∃ r, (genSplit sep n s).getLast? = some r ∧ r <:+ s ∧ ¬ sep <:+: r ∧
      (Unbordered sep → AfterLast sep s r) := by
  induction n generalizing s with
  | zero =>
    have hs : s = [] := List.length_eq_zero.mp (Nat.le_zero.mp hn)
    subst hs
    have hno : ¬ sep <:+: [] := fun h => hsep (List.infix_nil.mp h)
    exact ⟨[], rfl, List.suffix_refl [], hno, fun _ => Or.inl ⟨hno, rfl⟩⟩
  | succ n ih =>
    simp only [genSplit]
    cases hi : Index s sep with
    | none =>
      exact ⟨s, rfl, List.suffix_refl s, Index_none s sep hi,
        fun _ => Or.inl ⟨Index_none s sep hi, rfl⟩⟩
    | some m =>
      obtain ⟨heq, hle, hmin⟩ := Index_some s sep m hi
      have hpos : 0 < sep.length := List.length_pos.mpr hsep
      have htake : (s.take m).length = m := by
        rw [List.length_take]
        omega
      have hlen : (s.drop (m + sep.length)).length ≤ n := by
        have h2 := congrArg List.length heq
        simp only [List.length_append, htake] at h2
        omega
      obtain ⟨r, hr, hsuf, hfree, hspec⟩ := ih (s.drop (m + sep.length)) hlen
      refine ⟨r, ?_, hsuf.trans (List.drop_suffix _ s), hfree, fun hu => ?_⟩
      · simp only
        rw [List.getLast?_cons, hr]
        rfl
      · have hdrop : ∀ p1 q1, s = p1 ++ sep ++ q1 → m < p1.length →
            s.drop (m + sep.length) = p1.drop (m + sep.length) ++ sep ++ q1 ∧
              m + sep.length ≤ p1.length := by
          intro p1 q1 hpq hlt
          have hd := occurrences_disjoint sep (s.take m) (s.drop (m + sep.length)) p1 q1
            hu (heq.symm.trans hpq) (by omega)
          rw [htake] at hd
          refine ⟨?_, hd⟩
          conv_lhs => rw [hpq]
          exact drop_occurrence p1 sep q1 _ hd
        rcases hspec hu with ⟨hno, rfl⟩ | ⟨p0, hp0, hmax⟩
        · refine Or.inr ⟨s.take m, heq, ?_⟩
          intro p1 q1 hpq
          by_contra hc
          have hlt : m < p1.length := by omega
          exact hno ⟨p1.drop (m + sep.length), q1, (hdrop p1 q1 hpq hlt).1.symm⟩
        · refine Or.inr ⟨s.take m ++ sep ++ p0, ?_, ?_⟩
          · conv_lhs => rw [heq, hp0]
            simp only [List.append_assoc]
          · intro p1 q1 hpq
            simp only [List.length_append, htake]
            by_cases hlt : m < p1.length
            · obtain ⟨h1, h2⟩ := hdrop p1 q1 hpq hlt
              have h3 := hmax _ _ h1
              rw [List.length_drop] at h3
              omega
            · omega

/-- For an unbordered separator, the text after the last occurrence of the separator in
`front ++ sep ++ name` is `name` when the separator does not occur in `name`. -/
theorem AfterLast_append (sep front name r : List Char) (hu : Unbordered sep)
    (hname : ¬ sep <:+: name) (h : AfterLast sep (front ++ sep ++ name) r) : r = name := by
  rcases h with ⟨hno, _⟩ | ⟨p, hp, hmax⟩
  · exact absurd ⟨front, name, rfl⟩ hno
  · have hle := hmax front name rfl
    rcases Nat.lt_or_ge front.length p.length with hlt | hge
    · have hd := occurrences_disjoint sep front name p r hu hp hlt
      exfalso
      apply hname
      refine ⟨p.drop (front.length + sep.length), r, ?_⟩
      have h1 := congrArg (List.drop (front.length + sep.length)) hp
      rw [drop_occurrence p sep r _ hd] at h1
      have h2 : List.drop (front.length + sep.length) (front ++ sep ++ name) = name := by
        rw [← List.length_append, List.drop_left]
      exact h1.symm.trans h2
    · have hlen : front.length = p.length := Nat.le_antisymm hle hge
      have h1 : front ++ (sep ++ name) = p ++ (sep ++ r) := by
        simpa only [List.append_assoc] using hp
      have h2 := (List.append_inj h1 hlen).2
      exact (List.append_cancel_left h2).symm

/-- A text without the separator is its own text after the last occurrence. -/
theorem AfterLast_self (sep name r : List Char) (hname : ¬ sep <:+: name)
    (h : AfterLast sep name r) : r = name := by
  rcases h with ⟨_, hr⟩ | ⟨p, hp, _⟩
  · exact hr
  · exact absurd ⟨p, r, hp.symm⟩ hname

/-- For an unbordered separator, the text before the first occurrence of the separator
in `name ++ sep ++ back` is `name` when the separator does not occur in `name`. -/
theorem BeforeFirst_append (sep name back r : List Char) (hu : Unbordered sep)
    (hname : ¬ sep <:+: name) (h : BeforeFirst sep (name ++ sep ++ back) r) :
    r = name := by
  rcases h with ⟨hno, _⟩ | ⟨q, hq, hmin⟩
  · exact absurd ⟨name, back, rfl⟩ hno
  · have hle := hmin name back rfl
    rcases Nat.lt_or_ge r.length name.length with hlt | hge
    · have hd := occurrences_disjoint sep r q name back hu hq.symm hlt
      exfalso
      apply hname
      have hpre : r ++ sep <+: name := by
        have h1 : r ++ sep <+: name ++ sep ++ back := ⟨q, hq.symm⟩
        have h2 : name <+: name ++ sep ++ back :=
          ⟨sep ++ back, by rw [List.append_assoc]⟩
        exact List.prefix_of_prefix_length_le h1 h2 (by rw [List.length_append]; exact hd)
      obtain ⟨t, ht⟩ := hpre
      exact ⟨r, t, ht⟩
    · have hlen : r.length = name.length := Nat.le_antisymm hle hge
      have h1 : r ++ (sep ++ q) = name ++ (sep ++ back) := by
        simpa only [List.append_assoc] using hq.symm
      exact (List.append_inj h1 hlen).1

/-- A text without the separator is its own text before the first occurrence. -/
theorem BeforeFirst_self (sep name r : List Char) (hname : ¬ sep <:+: name)
    (h : BeforeFirst sep name r) : r = name := by
  rcases h with ⟨_, hr⟩ | ⟨q, hq, _⟩
  · exact hr
  · exact absurd ⟨r, q, hq.symm⟩ hname

/-! ## Lemmas on the reverse functions -/

theorem data_ne_nil (sep : String) (h : sep ≠ "") : sep.data ≠ [] :=
  fun hd => h (String.ext hd)

theorem Split_of_ne_nil (s sep : String) (h : sep.data ≠ []) :
    Split s sep = (genSplit sep.data s.data.length s.data).map String.mk := by
  simp only [Split, h, if_false]

/-- With a non-empty separator the reverse function of
`FormattedIdentifierUserDefinedNameLast` returns the last token of the split. -/
theorem getExternalName_last (separator id : String) (tfstate : Bag)
    (hsep : separator.data ≠ []) (hid : tfstate.lookup "id" = some (.string id)) :
    ∃ r, FormattedIdentifierUserDefinedNameLast.GetExternalNameFn separator tfstate =
        .ok (String.mk r) ∧ r <:+ id.data ∧ ¬ separator.data <:+: r ∧
      (Unbordered separator.data → AfterLast separator.data id.data r) := by
  obtain ⟨r, hr, hspec⟩ :=
    genSplit_getLast separator.data hsep id.data.length id.data (Nat.le_refl _)
  refine ⟨r, ?_, hspec⟩
  simp only [FormattedIdentifierUserDefinedNameLast.GetExternalNameFn, hid,
    Split_of_ne_nil id separator hsep, List.getLast?_map, hr, Option.map_some']

/-- With a non-empty separator the reverse function of
`FormattedIdentifierUserDefinedNameFirst` returns the first token of the split. -/
theorem getExternalName_first (separator id : String) (tfstate : Bag)
    (hsep : separator.data ≠ []) (hid : tfstate.lookup "id" = some (.string id)) :
    ∃ r, FormattedIdentifierUserDefinedNameFirst.GetExternalNameFn separator tfstate =
        .ok (String.mk r) ∧
      BeforeFirst separator.data id.data r := by
  obtain ⟨r, hr, hspec⟩ :=
    genSplit_head separator.data hsep id.data.length id.data (Nat.le_refl _)
  refine ⟨r, ?_, hspec⟩
  simp only [FormattedIdentifierUserDefinedNameFirst.GetExternalNameFn, hid,
    Split_of_ne_nil id separator hsep, List.head?_map, hr, Option.map_some']

theorem Join_append_singleton_data (a : String) (rest : List String) (n sep : String) :
    (Join ((a :: rest) ++ [n]) sep).data =
      (Join (a :: rest) sep).data ++ sep.data ++ n.data := by
  rw [Join_append_singleton, String.data_append, String.data_append]

theorem Join_cons_cons_data (a b : String) (rest : List String) (sep : String) :
    (Join (a :: b :: rest) sep).data =
      a.data ++ sep.data ++ (Join (b :: rest) sep).data := by
  rw [Join_cons_cons, String.data_append, String.data_append]

/-! ## The forward functions -/

/-- C1: when every listed key holds a string, the forward function of
`FormattedIdentifierFromProvider(separator, keys...)` succeeds and returns the values
of the keys, in key order, joined with the separator. -/
theorem fromProvider_getID_joins (separator : String) (keys : List String)
    (externalName : String) (parameters cfg : Bag) (vals : String → String)
    (h : ∀ k ∈ keys, parameters.lookup k = some (.string (vals k))) :
    FormattedIdentifierFromProvider.GetIDFn separator keys externalName parameters cfg =
      .ok (Join (keys.map vals) separator) := by
  simp only [FormattedIdentifierFromProvider.GetIDFn,
    keyValues_ok " needs to be string" parameters vals keys h]

theorem fromProvider_getID_joins_witness :
    FormattedIdentifierFromProvider.GetIDFn "/" ["rest_api_id", "resource_id", "http_method"]
        "" [("http_method", .string "GET"), ("rest_api_id", .string "12345abcde"),
            ("resource_id", .string "67890fghij")] [] =
      .ok "12345abcde/67890fghij/GET" :=
  (fromProvider_getID_joins "/" ["rest_api_id", "resource_id", "http_method"] ""
    [("http_method", .string "GET"), ("rest_api_id", .string "12345abcde"),
      ("resource_id", .string "67890fghij")] []
    (fun k => if k = "rest_api_id" then "12345abcde"
      else if k = "resource_id" then "67890fghij" else "GET")
    (by
      intro k hk
      simp only [List.mem_cons, List.mem_singleton, List.not_mem_nil, or_false] at hk
      rcases hk with rfl | rfl | rfl <;> rfl)).trans (by decide)

/-- C2: when every listed key holds a string (the key list may be empty), the forward
function of `FormattedIdentifierUserDefinedNameLast(param, separator, keys...)` returns
the values of the keys in key order followed by the external name, joined with the
separator. -/
theorem nameLast_getID_appends_name (separator : String) (keys : List String)
    (externalName : String) (parameters cfg : Bag) (vals : String → String)
    (h : ∀ k ∈ keys, parameters.lookup k = some (.string (vals k))) :
    FormattedIdentifierUserDefinedNameLast.GetIDFn separator keys externalName
        parameters cfg =
      .ok (Join (keys.map vals ++ [externalName]) separator) := by
  simp only [FormattedIdentifierUserDefinedNameLast.GetIDFn,
    keyValues_ok " needs to be a string" parameters vals keys h]

theorem nameLast_getID_appends_name_witness :
    FormattedIdentifierUserDefinedNameLast.GetIDFn ":" ["cluster_identifier"]
        "my-endpoint" [("cluster_identifier", .string "my-cluster")] [] =
      .ok "my-cluster:my-endpoint" ∧
    FormattedIdentifierUserDefinedNameLast.GetIDFn ":" [] "my-endpoint" [] [] =
      .ok "my-endpoint" :=
  ⟨(nameLast_getID_appends_name ":" ["cluster_identifier"] "my-endpoint"
      [("cluster_identifier", .string "my-cluster")] [] (fun _ => "my-cluster")
      (by
        intro k hk
        simp only [List.mem_singleton] at hk
        subst hk
        rfl)).trans (by decide),
   (nameLast_getID_appends_name ":" [] "my-endpoint" [] [] (fun _ => "")
      (fun k hk => absurd hk (List.not_mem_nil k))).trans (by decide)⟩

/-- C5: when every listed key holds a string, the forward function of
`FormattedIdentifierUserDefinedNameFirst(param, separator, keys...)` returns the
external name followed by the values of the keys in key order, joined with the
separator. -/
theorem nameFirst_getID_leads_with_name (separator : String) (keys : List String)
    (externalName : String) (parameters cfg : Bag) (vals : String → String)
    (h : ∀ k ∈ keys, parameters.lookup k = some (.string (vals k))) :
    FormattedIdentifierUserDefinedNameFirst.GetIDFn separator keys externalName
        parameters cfg =
      .ok (Join (externalName :: keys.map vals) separator) := by
  simp only [FormattedIdentifierUserDefinedNameFirst.GetIDFn,
    keyValues_ok " needs to be a string" parameters vals keys h]

theorem nameFirst_getID_leads_with_name_witness :
    FormattedIdentifierUserDefinedNameFirst.GetIDFn ":" ["product_id"]
        "my-budget" [("product_id", .string "prod-1234")] [] =
      .ok "my-budget:prod-1234" :=
  (nameFirst_getID_leads_with_name ":" ["product_id"] "my-budget"
    [("product_id", .string "prod-1234")] [] (fun _ => "prod-1234")
    (by
      intro k hk
      simp only [List.mem_singleton] at hk
      subst hk
      rfl)).trans (by decide)

/-- C8: in a parameter bag where every listed key that is present holds a string and
some listed key is absent, the forward function of `FormattedIdentifierFromProvider`
fails with `"<k> cannot be empty"`, where `k` is the first absent key in key order
(`front` are the keys before it, all present). -/
theorem fromProvider_getID_missing_field (separator : String) (front back : List String)
    (k externalName : String) (parameters cfg : Bag)
    (hstr : ∀ k1 ∈ front ++ k :: back, ∀ v, parameters.lookup k1 = some v →
      ∃ s, v = .string s)
    (hfront : ∀ k1 ∈ front, parameters.lookup k1 ≠ none)
    (hk : parameters.lookup k = none) :
    FormattedIdentifierFromProvider.GetIDFn separator (front ++ k :: back) externalName
        parameters cfg =
      .error (k ++ " cannot be empty") := by
  have hfront1 : ∀ k1 ∈ front, ∃ s, parameters.lookup k1 = some (.string s) := by
    intro k1 hk1
    cases hv : parameters.lookup k1 with
    | none => exact absurd hv (hfront k1 hk1)
    | some v =>
      obtain ⟨s, rfl⟩ := hstr k1 (List.mem_append_left _ hk1) v hv
      exact ⟨s, rfl⟩
  simp only [FormattedIdentifierFromProvider.GetIDFn,
    keyValues_missing " needs to be string" parameters front back k hfront1 hk]

theorem fromProvider_getID_missing_field_witness :
    (FormattedIdentifierFromProvider.GetIDFn ","
        ["resource_arn", "license_configuration_arn"] ""
        [("resource_arn", .string "arn:aws:ec2:eu-west-1:123456789012:image/ami-1")] [] =
      .error "license_configuration_arn cannot be empty" ∧
     FormattedIdentifierFromProvider.GetIDFn ","
        ["license_configuration_arn", "resource_arn"] ""
        [("resource_arn", .string "arn:aws:ec2:eu-west-1:123456789012:image/ami-1")] [] =
      .error "license_configuration_arn cannot be empty") ∧
    (FormattedIdentifierFromProvider.GetIDFn ","
        ["resource_arn", "license_configuration_arn"] ""
        [("license_configuration_arn", .string "arn:aws:license-manager:::lc-1")] [] =
      .error "resource_arn cannot be empty" ∧
     FormattedIdentifierFromProvider.GetIDFn ","
        ["license_configuration_arn", "resource_arn"] ""
        [("license_configuration_arn", .string "arn:aws:license-manager:::lc-1")] [] =
      .error "resource_arn cannot be empty") := by
  have hstr : ∀ (b : Bag) (t : String) (key : String), b = [(key, .string t)] →
      ∀ k1 : String, ∀ v, b.lookup k1 = some v → ∃ s, v = .string s := by
    intro b t key hb k1 v hv
    subst hb
    simp only [List.lookup] at hv
    split at hv
    · exact ⟨t, (Option.some.inj hv).symm⟩
    · exact absurd hv (by simp)
  refine ⟨⟨?_, ?_⟩, ?_, ?_⟩
  · exact (fromProvider_getID_missing_field "," ["resource_arn"] []
      "license_configuration_arn" "" [("resource_arn", .string "arn:aws:ec2:eu-west-1:123456789012:image/ami-1")] [] (fun k1 _ => hstr _ _ _ rfl k1)
      (by
        intro k1 hk1
        simp only [List.mem_singleton] at hk1
        subst hk1
        simp [List.lookup])
      rfl).trans (by decide)
  · exact (fromProvider_getID_missing_field "," [] ["resource_arn"]
      "license_configuration_arn" "" [("resource_arn", .string "arn:aws:ec2:eu-west-1:123456789012:image/ami-1")] [] (fun k1 _ => hstr _ _ _ rfl k1)
      (fun k1 hk1 => absurd hk1 (List.not_mem_nil k1)) rfl).trans (by decide)
  · exact (fromProvider_getID_missing_field "," [] ["license_configuration_arn"]
      "resource_arn" "" [("license_configuration_arn", .string "arn:aws:license-manager:::lc-1")] [] (fun k1 _ => hstr _ _ _ rfl k1)
      (fun k1 hk1 => absurd hk1 (List.not_mem_nil k1)) rfl).trans (by decide)
  · exact (fromProvider_getID_missing_field "," ["license_configuration_arn"] []
      "resource_arn" "" [("license_configuration_arn", .string "arn:aws:license-manager:::lc-1")] [] (fun k1 _ => hstr _ _ _ rfl k1)
      (by
        intro k1 hk1
        simp only [List.mem_singleton] at hk1
        subst hk1
        simp [List.lookup])
      rfl).trans (by decide)

/-- C9 (as stated, refuted): with keys `resource_arn`, `license_configuration_arn` and
the bag `{resource_arn: 1}` the key `license_configuration_arn` is absent, yet the
forward function of `FormattedIdentifierFromProvider` fails with the type error of the
other key, which is not a missing-field error of any key. -/
theorem getID_absent_key_type_error_first :
    List.lookup "license_configuration_arn" [("resource_arn", Value.number 1)] = none ∧
    FormattedIdentifierFromProvider.GetIDFn ","
        ["resource_arn", "license_configuration_arn"] ""
        [("resource_arn", .number 1)] [] =
      .error "resource_arn needs to be string" ∧
    ¬ ∃ k, FormattedIdentifierFromProvider.GetIDFn ","
        ["resource_arn", "license_configuration_arn"] ""
        [("resource_arn", .number 1)] [] = .error (k ++ " cannot be empty") := by
  refine ⟨rfl, by decide, ?_⟩
  rintro ⟨k, hk⟩
  have h1 : FormattedIdentifierFromProvider.GetIDFn ","
        ["resource_arn", "license_configuration_arn"] ""
        [("resource_arn", .number 1)] [] =
      .error "resource_arn needs to be string" := by decide
  rw [h1] at hk
  have h2 := congrArg (fun t : String => t.data.getLast?) (Result.error.inj hk)
  simp at h2

/-- C9 (amended): when some listed key is absent, the forward functions of
`FormattedIdentifierFromProvider`, `FormattedIdentifierUserDefinedNameLast` and
`FormattedIdentifierUserDefinedNameFirst` never succeed and never abort: each fails
with the error of the first listed key that is absent or not a string, which is
`"<k> cannot be empty"` when that key is absent and the type error of that key when it
holds a value that is not a string. -/
theorem getID_absent_key_fails (separator : String) (keys : List String)
    (externalName : String) (parameters cfg : Bag)
    (habs : ∃ k ∈ keys, parameters.lookup k = none) :
    FirstFailure " needs to be string" keys parameters
      (FormattedIdentifierFromProvider.GetIDFn separator keys externalName
        parameters cfg) ∧
    FirstFailure " needs to be a string" keys parameters
      (FormattedIdentifierUserDefinedNameLast.GetIDFn separator keys externalName
        parameters cfg) ∧
    FirstFailure " needs to be a string" keys parameters
      (FormattedIdentifierUserDefinedNameFirst.GetIDFn separator keys externalName
        parameters cfg) := by
  have key : ∀ mismatch (f : List String → List String),
      FirstFailure mismatch keys parameters
        (match keyValues mismatch parameters keys with
          | .ok vals => .ok (Join (f vals) separator)
          | .error msg => .error msg
          | .abort => .abort) := by
    intro mismatch f
    obtain ⟨front, k, back, hkeys, hfront, hres⟩ :=
      keyValues_absent mismatch parameters keys habs
    refine ⟨front, k, back, hkeys, hfront, ?_⟩
    rcases hres with ⟨hk, hr⟩ | ⟨v, hk, hv, hr⟩
    · exact Or.inl ⟨hk, by rw [hr]⟩
    · exact Or.inr ⟨v, hk, hv, by rw [hr]⟩
  exact ⟨key " needs to be string" (fun vals => vals),
    key " needs to be a string" (fun vals => vals ++ [externalName]),
    key " needs to be a string" (fun vals => externalName :: vals)⟩

theorem getID_absent_key_fails_witness :
    (∃ k ∈ ["cluster_name", "region"],
      List.lookup k [("cluster_name", Value.list [])] = none) ∧
    FirstFailure " needs to be string" ["cluster_name", "region"]
      [("cluster_name", Value.list [])]
      (FormattedIdentifierFromProvider.GetIDFn ":" ["cluster_name", "region"] "n"
        [("cluster_name", Value.list [])] []) ∧
    FirstFailure " needs to be a string" ["cluster_name", "region"]
      [("cluster_name", Value.list [])]
      (FormattedIdentifierUserDefinedNameLast.GetIDFn ":" ["cluster_name", "region"] "n"
        [("cluster_name", Value.list [])] []) ∧
    FirstFailure " needs to be a string" ["cluster_name", "region"]
      [("cluster_name", Value.list [])]
      (FormattedIdentifierUserDefinedNameFirst.GetIDFn ":" ["cluster_name", "region"] "n"
        [("cluster_name", Value.list [])] []) :=
  ⟨⟨"region", by simp, rfl⟩,
   getID_absent_key_fails ":" ["cluster_name", "region"] "n"
     [("cluster_name", Value.list [])] [] ⟨"region", by simp, rfl⟩⟩

/-- C10: no implicit coercion in `FormattedIdentifierFromProvider`.  When the first
listed key that is absent or not a string (`k`, after the keys `front` that all hold
strings) is present with a value that is not a string, the forward function fails with
`"<k> needs to be string"`; and whenever the forward function returns an identifier,
every listed key holds a string. -/
theorem fromProvider_getID_no_coercion (separator : String) (front back : List String)
    (k externalName : String) (parameters cfg : Bag) (v : Value)
    (hfront : ∀ k1 ∈ front, ∃ s, parameters.lookup k1 = some (.string s))
    (hk : parameters.lookup k = some v) (hv : ∀ s, v ≠ .string s) :
    FormattedIdentifierFromProvider.GetIDFn separator (front ++ k :: back) externalName
        parameters cfg =
      .error (k ++ " needs to be string") ∧
    ∀ (keys1 : List String) (parameters1 : Bag) (id : String),
      FormattedIdentifierFromProvider.GetIDFn separator keys1 externalName
          parameters1 cfg = .ok id →
        ∀ k1 ∈ keys1, ∃ s, parameters1.lookup k1 = some (.string s) := by
  constructor
  · simp only [FormattedIdentifierFromProvider.GetIDFn,
      keyValues_mismatch " needs to be string" parameters front back k v hfront hk hv]
  · intro keys1 parameters1 id hid
    rcases keyValues_cases " needs to be string" parameters1 keys1 with
      ⟨_, _, hall⟩ | ⟨_, _, _, _, _, ⟨_, hr⟩ | ⟨_, _, _, hr⟩⟩
    · exact hall
    · simp [FormattedIdentifierFromProvider.GetIDFn, hr] at hid
    · simp [FormattedIdentifierFromProvider.GetIDFn, hr] at hid

theorem fromProvider_getID_no_coercion_witness :
    FormattedIdentifierFromProvider.GetIDFn "/" ["rest_api_id", "status_code"] ""
        [("rest_api_id", .string "12345abcde"), ("status_code", .number 200)] [] =
      .error "status_code needs to be string" :=
  ((fromProvider_getID_no_coercion "/" ["rest_api_id"] [] "status_code" ""
    [("rest_api_id", .string "12345abcde"), ("status_code", .number 200)] []
    (.number 200)
    (by
      intro k1 hk1
      simp only [List.mem_singleton] at hk1
      subst hk1
      exact ⟨"12345abcde", rfl⟩)
    rfl (fun s h => Value.noConfusion h)).1).trans (by decide)

/-! ## The reverse functions and the round trip -/

/-- C3 (as stated, refuted): with separator `"aa"` and id `"aaa"` the reverse function
of `FormattedIdentifierUserDefinedNameLast` returns `"a"` (the split finds the
occurrence at position 0 and keeps the rest), while the text after the last occurrence
of `"aa"` in `"aaa"` (position 1) is the empty string. -/
theorem nameLast_getExternalName_overlap :
    FormattedIdentifierUserDefinedNameLast.GetExternalNameFn "aa"
        [("id", .string "aaa")] = .ok "a" ∧
    AfterLast "aa".data "aaa".data "".data ∧
    ¬ AfterLast "aa".data "aaa".data "a".data := by
  refine ⟨by decide, Or.inr ⟨['a'], rfl, ?_⟩, ?_⟩
  · intro p1 q1 h
    have h1 := congrArg List.length h
    simp only [List.length_append, List.length_cons, List.length_nil] at h1
    show p1.length ≤ 1
    omega
  · rintro (⟨hno, _⟩ | ⟨p, hp, hmax⟩)
    · exact hno ⟨[], ['a'], rfl⟩
    · have h1 := congrArg List.length hp
      simp only [List.length_append, List.length_cons, List.length_nil] at h1
      have h5 : 1 ≤ p.length := hmax ['a'] [] rfl
      omega

/-- C3 (amended): for every non-empty separator and every state whose `id` is a string,
the reverse function of `FormattedIdentifierUserDefinedNameLast` succeeds and returns
the last token of `strings.Split(id, separator)`, an ending of `id` in which the
separator does not occur; when the separator is unbordered (no proper non-empty
beginning of it is also its ending, as for every separator of one character) the
returned name is the text of `id` after the last occurrence of the separator, or all of
`id` when the separator does not occur. -/
theorem nameLast_getExternalName_last_token (separator id : String) (tfstate : Bag)
    (hsep : separator ≠ "") (hid : tfstate.lookup "id" = some (.string id)) :
    ∃ name, FormattedIdentifierUserDefinedNameLast.GetExternalNameFn separator tfstate =
        .ok name ∧
      (Split id separator).getLast? = some name ∧
      name.data <:+ id.data ∧ ¬ separator.data <:+: name.data ∧
      (Unbordered separator.data → AfterLast separator.data id.data name.data) := by
  obtain ⟨r, hr, hspec⟩ :=
    getExternalName_last separator id tfstate (data_ne_nil separator hsep) hid
  refine ⟨String.mk r, hr, ?_, hspec⟩
  simp only [FormattedIdentifierUserDefinedNameLast.GetExternalNameFn, hid] at hr
  cases hl : (Split id separator).getLast? with
  | none =>
    rw [hl] at hr
    exact Result.noConfusion hr
  | some x =>
    rw [hl] at hr
    rw [Result.ok.inj hr]

theorem nameLast_getExternalName_last_token_witness :
    (Unbordered ":".data ∧
      FormattedIdentifierUserDefinedNameLast.GetExternalNameFn ":"
        [("id", .string "my-cluster:my-endpoint")] = .ok "my-endpoint" ∧
      AfterLast ":".data "my-cluster:my-endpoint".data "my-endpoint".data) ∧
    (Split "aaa" "aa" = ["", "a"] ∧
      FormattedIdentifierUserDefinedNameLast.GetExternalNameFn "aa"
        [("id", .string "aaa")] = .ok "a") := by
  constructor
  · obtain ⟨name, h1, _, _, _, h2⟩ := nameLast_getExternalName_last_token ":"
      "my-cluster:my-endpoint" [("id", .string "my-cluster:my-endpoint")] (by decide) rfl
    have h3 : FormattedIdentifierUserDefinedNameLast.GetExternalNameFn ":"
        [("id", .string "my-cluster:my-endpoint")] = .ok "my-endpoint" := by decide
    have h4 : name = "my-endpoint" := Result.ok.inj (h1.symm.trans h3)
    subst h4
    exact ⟨by decide, h3, h2 (by decide)⟩
  · obtain ⟨name, h1, h2, _⟩ := nameLast_getExternalName_last_token "aa" "aaa"
      [("id", .string "aaa")] (by decide) rfl
    have h3 : Split "aaa" "aa" = ["", "a"] := by decide
    rw [h3] at h2
    have h4 : name = "a" := (Option.some.inj h2).symm
    subst h4
    exact ⟨h3, h1⟩

/-- C4 (as stated, refuted): with separator `"aa"`, key value `"a"` and external name
`"b"` (non-empty, without `"aa"`) the forward function of
`FormattedIdentifierUserDefinedNameLast` gives `"aaab"`, and the reverse function
returns `"ab"` from it, not `"b"`. -/
theorem nameLast_round_trip_overlap :
    "b" ≠ "" ∧ ¬ "aa".data <:+: "b".data ∧
    FormattedIdentifierUserDefinedNameLast.GetIDFn "aa" ["cluster_name"] "b"
        [("cluster_name", .string "a")] [] = .ok "aaab" ∧
    FormattedIdentifierUserDefinedNameLast.GetExternalNameFn "aa"
        [("id", .string "aaab")] = .ok "ab" ∧
    FormattedIdentifierUserDefinedNameLast.GetExternalNameFn "aa"
        [("id", .string "aaab")] ≠ .ok "b" := by
  refine ⟨by decide, by decide, by decide, by decide, by decide⟩

/-- C4 (amended): round trip of `FormattedIdentifierUserDefinedNameLast` for an
unbordered separator (in particular every separator of one character).  When every
listed key holds a string (the values may contain the separator) and the separator
does not occur in the external name `n`, the forward function returns an identifier and
the reverse function returns `n` from every state whose `id` is that identifier. -/
theorem nameLast_round_trip (separator : String) (keys : List String) (n : String)
    (parameters cfg : Bag) (vals : String → String)
    (hvals : ∀ k ∈ keys, parameters.lookup k = some (.string (vals k)))
    (hu : Unbordered separator.data) (hn : ¬ separator.data <:+: n.data) :
    ∃ id, FormattedIdentifierUserDefinedNameLast.GetIDFn separator keys n
        parameters cfg = .ok id ∧
      ∀ tfstate : Bag, tfstate.lookup "id" = some (.string id) →
        FormattedIdentifierUserDefinedNameLast.GetExternalNameFn separator tfstate =
          .ok n := by
  have hsep : separator.data ≠ [] := fun h => hn (by rw [h]; exact List.nil_infix)
  refine ⟨Join (keys.map vals ++ [n]) separator, ?_, ?_⟩
  · simp only [FormattedIdentifierUserDefinedNameLast.GetIDFn,
      keyValues_ok " needs to be a string" parameters vals keys hvals]
  · intro tfstate hid
    obtain ⟨r, hr, _, _, hspec⟩ := getExternalName_last separator _ tfstate hsep hid
    have hrn : r = n.data := by
      cases hm : keys.map vals with
      | nil =>
        rw [hm] at hspec
        exact AfterLast_self separator.data n.data r hn (hspec hu)
      | cons a rest =>
        rw [hm, Join_append_singleton_data] at hspec
        exact AfterLast_append separator.data _ n.data r hu hn (hspec hu)
    rw [hr, hrn]

theorem nameLast_round_trip_witness :
    Unbordered ":".data ∧ ¬ ":".data <:+: "my-endpoint".data ∧
    ∃ id, FormattedIdentifierUserDefinedNameLast.GetIDFn ":" ["cluster_identifier"]
        "my-endpoint" [("cluster_identifier", .string "my:cluster")] [] = .ok id ∧
      ∀ tfstate : Bag, tfstate.lookup "id" = some (.string id) →
        FormattedIdentifierUserDefinedNameLast.GetExternalNameFn ":" tfstate =
          .ok "my-endpoint" :=
  ⟨by decide, by decide,
   nameLast_round_trip ":" ["cluster_identifier"] "my-endpoint"
     [("cluster_identifier", .string "my:cluster")] [] (fun _ => "my:cluster")
     (by
       intro k hk
       simp only [List.mem_singleton] at hk
       subst hk
       rfl)
     (by decide) (by decide)⟩

/-- C6: for every non-empty separator and every state whose `id` is a string, the
reverse function of `FormattedIdentifierUserDefinedNameFirst` succeeds and returns the
text of `id` before the first occurrence of the separator, or all of `id` when the
separator does not occur. -/
theorem nameFirst_getExternalName_first_token (separator id : String) (tfstate : Bag)
    (hsep : separator ≠ "") (hid : tfstate.lookup "id" = some (.string id)) :
    ∃ name, FormattedIdentifierUserDefinedNameFirst.GetExternalNameFn separator tfstate =
        .ok name ∧
      BeforeFirst separator.data id.data name.data := by
  obtain ⟨r, hr, hspec⟩ :=
    getExternalName_first separator id tfstate (data_ne_nil separator hsep) hid
  exact ⟨String.mk r, hr, hspec⟩

theorem nameFirst_getExternalName_first_token_witness :
    FormattedIdentifierUserDefinedNameFirst.GetExternalNameFn ":"
        [("id", .string "my-budget:prod-1234:extra")] = .ok "my-budget" ∧
    BeforeFirst ":".data "my-budget:prod-1234:extra".data "my-budget".data := by
  obtain ⟨name, h1, h2⟩ := nameFirst_getExternalName_first_token ":"
    "my-budget:prod-1234:extra" [("id", .string "my-budget:prod-1234:extra")]
    (by decide) rfl
  have h3 : FormattedIdentifierUserDefinedNameFirst.GetExternalNameFn ":"
      [("id", .string "my-budget:prod-1234:extra")] = .ok "my-budget" := by decide
  have h4 : name = "my-budget" := Result.ok.inj (h1.symm.trans h3)
  subst h4
  exact ⟨h3, h2⟩

/-- C7 (as stated, refuted): with separator `"aa"`, key value `"x"` and external name
`"a"` (non-empty, without `"aa"`) the forward function of
`FormattedIdentifierUserDefinedNameFirst` gives `"aaax"`, and the reverse function
returns the empty string from it, not `"a"`. -/
theorem nameFirst_round_trip_overlap :
    "a" ≠ "" ∧ ¬ "aa".data <:+: "a".data ∧
    FormattedIdentifierUserDefinedNameFirst.GetIDFn "aa" ["product_id"] "a"
        [("product_id", .string "x")] [] = .ok "aaax" ∧
    FormattedIdentifierUserDefinedNameFirst.GetExternalNameFn "aa"
        [("id", .string "aaax")] = .ok "" ∧
    FormattedIdentifierUserDefinedNameFirst.GetExternalNameFn "aa"
        [("id", .string "aaax")] ≠ .ok "a" := by
  refine ⟨by decide, by decide, by decide, by decide, by decide⟩

/-- C7 (amended): round trip of `FormattedIdentifierUserDefinedNameFirst` for an
unbordered separator (in particular every separator of one character).  When every
listed key holds a string (the values may contain the separator) and the separator
does not occur in the external name `n`, the forward function returns an identifier and
the reverse function returns `n` from every state whose `id` is that identifier. -/
theorem nameFirst_round_trip (separator : String) (keys : List String) (n : String)
    (parameters cfg : Bag) (vals : String → String)
    (hvals : ∀ k ∈ keys, parameters.lookup k = some (.string (vals k)))
    (hu : Unbordered separator.data) (hn : ¬ separator.data <:+: n.data) :
    ∃ id, FormattedIdentifierUserDefinedNameFirst.GetIDFn separator keys n
        parameters cfg = .ok id ∧
      ∀ tfstate : Bag, tfstate.lookup "id" = some (.string id) →
        FormattedIdentifierUserDefinedNameFirst.GetExternalNameFn separator tfstate =
          .ok n := by
  have hsep : separator.data ≠ [] := fun h => hn (by rw [h]; exact List.nil_infix)
  refine ⟨Join (n :: keys.map vals) separator, ?_, ?_⟩
  · simp only [FormattedIdentifierUserDefinedNameFirst.GetIDFn,
      keyValues_ok " needs to be a string" parameters vals keys hvals]
  · intro tfstate hid
    obtain ⟨r, hr, hspec⟩ := getExternalName_first separator _ tfstate hsep hid
    have hrn : r = n.data := by
      cases hm : keys.map vals with
      | nil =>
        rw [hm] at hspec
        exact BeforeFirst_self separator.data n.data r hn hspec
      | cons a rest =>
        rw [hm, Join_cons_cons_data] at hspec
        exact BeforeFirst_append separator.data n.data _ r hu hn hspec
    rw [hr, hrn]

theorem nameFirst_round_trip_witness :
    Unbordered ":".data ∧ ¬ ":".data <:+: "my-budget".data ∧
    ∃ id, FormattedIdentifierUserDefinedNameFirst.GetIDFn ":" ["product_id"]
        "my-budget" [("product_id", .string "prod:1234")] [] = .ok id ∧
      ∀ tfstate : Bag, tfstate.lookup "id" = some (.string id) →
        FormattedIdentifierUserDefinedNameFirst.GetExternalNameFn ":" tfstate =
          .ok "my-budget" :=
  ⟨by decide, by decide,
   nameFirst_round_trip ":" ["product_id"] "my-budget"
     [("product_id", .string "prod:1234")] [] (fun _ => "prod:1234")
     (by
       intro k hk
       simp only [List.mem_singleton] at hk
       subst hk
       rfl)
     (by decide) (by decide)⟩

/-! ## Lemmas for the custom strategies -/

theorem valueAt_of_absent (m : Bag) (key : String) (h : Absent m key) :
    valueAt m key = .null := by
  rcases h with h | h <;> simp [valueAt, h]

theorem valueAt_of_lookup (m : Bag) (key : String) (v : Value)
    (h : m.lookup key = some v) : valueAt m key = v := by
  simp [valueAt, h]

theorem Index_of_not_infix (s sep : List Char) (h : ¬ sep <:+: s) : Index s sep = none := by
  cases hi : Index s sep with
  | none => rfl
  | some m =>
    exact absurd ⟨s.take m, s.drop (m + sep.length), (Index_some s sep m hi).1.symm⟩ h

/-- In `a ++ sep ++ b` the first occurrence of an unbordered separator that does not
occur in `a` is the one written between `a` and `b`. -/
theorem Index_append (sep a b : List Char) (hu : Unbordered sep) (ha : ¬ sep <:+: a) :
    Index (a ++ sep ++ b) sep = some a.length := by
  cases hi : Index (a ++ sep ++ b) sep with
  | none => exact absurd ⟨a, b, rfl⟩ (Index_none _ sep hi)
  | some m =>
    obtain ⟨heq, hle, hmin⟩ := Index_some _ sep m hi
    have hb : BeforeFirst sep (a ++ sep ++ b) ((a ++ sep ++ b).take m) :=
      Or.inr ⟨_, heq, fun p1 q1 h =>
        Nat.le_trans (List.length_take_le m _) (hmin p1 q1 h)⟩
    have htake := BeforeFirst_append sep a b _ hu ha hb
    have hlen := congrArg List.length htake
    rw [List.length_take, Nat.min_eq_left hle] at hlen
    rw [hlen]

/-- Two texts without the separator, joined by an unbordered separator, split into
exactly these two texts. -/
theorem genSplit_two (sep a b : List Char) (hu : Unbordered sep)
    (ha : ¬ sep <:+: a) (hb : ¬ sep <:+: b) (n : Nat) (hn : 1 ≤ n) :
    genSplit sep n (a ++ sep ++ b) = [a, b] := by
  obtain ⟨k, rfl⟩ : ∃ k, n = k + 1 := ⟨n - 1, by omega⟩
  have hrest : genSplit sep k b = [b] := by
    cases k with
    | zero => rfl
    | succ k => simp only [genSplit, Index_of_not_infix b sep hb]
  have htake : (a ++ sep ++ b).take a.length = a := by
    rw [List.append_assoc, List.take_left]
  have hdrop : (a ++ sep ++ b).drop (a.length + sep.length) = b := by
    rw [← List.length_append, List.drop_left]
  simp only [genSplit, Index_append sep a b hu ha, htake, hdrop, hrest]

theorem colon_infix_iff (l : List Char) : [':'] <:+: l ↔ ':' ∈ l := by
  constructor
  · rintro ⟨p, q, rfl⟩
    simp
  · intro h
    obtain ⟨p, q, rfl⟩ := List.append_of_mem h
    exact ⟨p, q, by simp⟩

/-! ## The table and the resource option -/

set_option maxRecDepth 100000

/-- C11: with a single key `x` the separator is irrelevant.  For every bag the forward
functions of `FormattedIdentifierFromProvider(s1, x)` and
`FormattedIdentifierFromProvider(s2, x)` return the same result, and when the bag holds a
string under `x` that result is this string. -/
theorem fromProvider_single_key (x s1 s2 externalName : String) (parameters cfg : Bag) :
    FormattedIdentifierFromProvider.GetIDFn s1 [x] externalName parameters cfg =
      FormattedIdentifierFromProvider.GetIDFn s2 [x] externalName parameters cfg ∧
    ∀ v, parameters.lookup x = some (.string v) →
      FormattedIdentifierFromProvider.GetIDFn s1 [x] externalName parameters cfg =
        .ok v := by
  constructor
  · cases h : parameters.lookup x with
    | none => simp only [FormattedIdentifierFromProvider.GetIDFn, keyValues, h]
    | some v =>
      cases v
      all_goals simp only [FormattedIdentifierFromProvider.GetIDFn, keyValues, h]
      rfl
  · intro v h
    simp only [FormattedIdentifierFromProvider.GetIDFn, keyValues, h]
    rfl

theorem fromProvider_single_key_witness :
    ExternalNameConfigs.lookup "aws_ec2_transit_gateway_vpc_attachment_accepter" =
      some (.FormattedIdentifierFromProvider "" ["transit_gateway_attachment_id"]) ∧
    FormattedIdentifierFromProvider.GetIDFn "" ["transit_gateway_attachment_id"] ""
        [("transit_gateway_attachment_id", .string "tgw-attach-12345678")] [] =
      .ok "tgw-attach-12345678" ∧
    FormattedIdentifierFromProvider.GetIDFn "" ["transit_gateway_attachment_id"] ""
        [("transit_gateway_attachment_id", .string "tgw-attach-12345678")] [] =
      FormattedIdentifierFromProvider.GetIDFn "/" ["transit_gateway_attachment_id"] ""
        [("transit_gateway_attachment_id", .string "tgw-attach-12345678")] [] :=
  ⟨by decide,
   (fromProvider_single_key "transit_gateway_attachment_id" "" "/" ""
     [("transit_gateway_attachment_id", .string "tgw-attach-12345678")] []).2
     "tgw-attach-12345678" rfl,
   (fromProvider_single_key "transit_gateway_attachment_id" "" "/" ""
     [("transit_gateway_attachment_id", .string "tgw-attach-12345678")] []).1⟩

/-- C12: a resource whose name is not a key of the table read by
`ExternalNameConfigurations` (in particular of `ExternalNameConfigs`) is returned
unchanged, with its `ExternalName`, its `Version` and every other field as before; so a
strategy whose forward function `GetIDFn` returns the external name still does so after
the option is applied. -/
theorem externalNameConfigurations_unregistered {E R : Type}
    (configs : List (String × E)) (r : Resource E R)
    (h : configs.lookup r.Name = none) :
    ExternalNameConfigurations configs r = r ∧
    ∀ (GetIDFn : E → String → Bag → Bag → Result String) (externalName : String)
        (parameters cfg : Bag),
      GetIDFn r.ExternalName externalName parameters cfg = .ok externalName →
      GetIDFn (ExternalNameConfigurations configs r).ExternalName externalName
        parameters cfg = .ok externalName := by
  have h1 : ExternalNameConfigurations configs r = r := by
    simp only [ExternalNameConfigurations, h]
  refine ⟨h1, ?_⟩
  intro GetIDFn externalName parameters cfg hid
  rw [h1]
  exact hid

theorem externalNameConfigurations_unregistered_witness :
    ExternalNameConfigs.lookup "aws_unregistered_resource" = none ∧
    ExternalNameConfigurations ExternalNameConfigs
        ({ Name := "aws_unregistered_resource", Version := "v1alpha1",
           ExternalName := Entry.NameAsIdentifier, other := () } :
          Resource Entry Unit) =
      { Name := "aws_unregistered_resource", Version := "v1alpha1",
        ExternalName := Entry.NameAsIdentifier, other := () } :=
  ⟨by decide,
   (externalNameConfigurations_unregistered ExternalNameConfigs
     ({ Name := "aws_unregistered_resource", Version := "v1alpha1",
        ExternalName := Entry.NameAsIdentifier, other := () } : Resource Entry Unit)
     (by decide)).1⟩

/-- C13: for a resource whose name is a key of the table read by
`ExternalNameConfigurations` (in particular of `ExternalNameConfigs`), the option sets
`ExternalName` to the entry of that name and `Version` to `v1beta1`, and leaves the name
and every other field as they were. -/
theorem externalNameConfigurations_registered {E R : Type}
    (configs : List (String × E)) (r : Resource E R) (e : E)
    (h : configs.lookup r.Name = some e) :
    ExternalNameConfigurations configs r =
      { Name := r.Name, Version := "v1beta1", ExternalName := e, other := r.other } := by
  simp only [ExternalNameConfigurations, h, VersionV1Beta1]

theorem externalNameConfigurations_registered_witness :
    ExternalNameConfigs.lookup "aws_lambda_function_url" = some Entry.lambdaFunctionURL ∧
    ExternalNameConfigurations ExternalNameConfigs
        ({ Name := "aws_lambda_function_url", Version := "v1alpha1",
           ExternalName := Entry.NameAsIdentifier, other := ["lambda"] } :
          Resource Entry (List String)) =
      { Name := "aws_lambda_function_url", Version := "v1beta1",
        ExternalName := Entry.lambdaFunctionURL, other := ["lambda"] } :=
  ⟨by decide,
   externalNameConfigurations_registered ExternalNameConfigs
     ({ Name := "aws_lambda_function_url", Version := "v1alpha1",
        ExternalName := Entry.NameAsIdentifier, other := ["lambda"] } :
       Resource Entry (List String))
     Entry.lambdaFunctionURL (by decide)⟩

/-- C20 (the code at the documented example): the entry of
`aws_ec2_transit_gateway_route_table_propagation` lists the attachment id before the
route table id, so for the documented pair it returns
`tgw-attach-87654321_tgw-rtb-12345678` and not the documented
`tgw-rtb-12345678_tgw-attach-87654321`, which the entry of
`aws_ec2_transit_gateway_route_table_association` returns. -/
theorem transitGatewayRouteTablePropagation_order :
    ExternalNameConfigs.lookup "aws_ec2_transit_gateway_route_table_propagation" =
      some (.FormattedIdentifierFromProvider "_"
        ["transit_gateway_attachment_id", "transit_gateway_route_table_id"]) ∧
    FormattedIdentifierFromProvider.GetIDFn "_"
        ["transit_gateway_attachment_id", "transit_gateway_route_table_id"] ""
        [("transit_gateway_route_table_id", .string "tgw-rtb-12345678"),
         ("transit_gateway_attachment_id", .string "tgw-attach-87654321")] [] =
      .ok "tgw-attach-87654321_tgw-rtb-12345678" ∧
    ExternalNameConfigs.lookup "aws_ec2_transit_gateway_route_table_association" =
      some (.FormattedIdentifierFromProvider "_"
        ["transit_gateway_route_table_id", "transit_gateway_attachment_id"]) ∧
    FormattedIdentifierFromProvider.GetIDFn "_"
        ["transit_gateway_route_table_id", "transit_gateway_attachment_id"] ""
        [("transit_gateway_route_table_id", .string "tgw-rtb-12345678"),
         ("transit_gateway_attachment_id", .string "tgw-attach-87654321")] [] =
      .ok "tgw-rtb-12345678_tgw-attach-87654321" := by
  refine ⟨by decide, by decide, by decide, by decide⟩

/-! ## The custom strategies -/

/-- C14 (as stated, refuted): with a route table id and both `destination_cidr_block` and
`destination_ipv6_cidr_block` supplied, the forward function of `route()` succeeds, and
with both `subnet_id` and `gateway_id` supplied the forward function of
`routeTableAssociation()` succeeds; neither reports an ambiguous input. -/
theorem ambiguous_fields_not_rejected :
    route.GetIDFn ""
        [("route_table_id", .string "rtb-4e616f6d69"),
         ("destination_cidr_block", .string "10.42.0.0/16"),
         ("destination_ipv6_cidr_block", .string "::/0")] [] =
      .ok "rtb-4e616f6d69_10.42.0.0/16" ∧
    routeTableAssociation.GetIDFn ""
        [("route_table_id", .string "rtb-4e616f6d69"),
         ("subnet_id", .string "subnet-9d4a7b6c"),
         ("gateway_id", .string "igw-c0a643a9")] [] =
      .ok "subnet-9d4a7b6c/rtb-4e616f6d69" := by
  refine ⟨by decide, by decide⟩

/-- C14 (amended): the custom strategies do not reject an ambiguous input.  With a string
route table id `r`, when each destination field is nil or a string and more than one of
them is supplied, the forward function of `route()` succeeds with `r`, `_` and the value
of one of the supplied fields; and when both `subnet_id` and `gateway_id` hold strings,
the forward function of `routeTableAssociation()` succeeds with the subnet id, `/` and
`r`. -/
theorem ambiguous_fields_accepted (externalName r : String) (parameters cfg : Bag)
    (hr : parameters.lookup "route_table_id" = some (.string r)) :
    ((∀ k ∈ destinationFields,
        Absent parameters k ∨ ∃ d, parameters.lookup k = some (.string d)) →
      (∃ k1 ∈ destinationFields, ∃ k2 ∈ destinationFields, k1 ≠ k2 ∧
        ¬ Absent parameters k1 ∧ ¬ Absent parameters k2) →
      ∃ k ∈ destinationFields, ∃ d, parameters.lookup k = some (.string d) ∧
        route.GetIDFn externalName parameters cfg = .ok (r ++ "_" ++ d)) ∧
    (∀ s g, parameters.lookup "subnet_id" = some (.string s) →
      parameters.lookup "gateway_id" = some (.string g) →
      routeTableAssociation.GetIDFn externalName parameters cfg =
        .ok (s ++ "/" ++ r)) := by
  constructor
  · intro hall htwo
    have hsome : ∃ k ∈ destinationFields, ¬ Absent parameters k := by
      obtain ⟨k1, hk1, _, _, _, h1, _⟩ := htwo
      exact ⟨k1, hk1, h1⟩
    have h1 := hall "destination_cidr_block" (by simp [destinationFields])
    have h2 := hall "destination_ipv6_cidr_block" (by simp [destinationFields])
    have h3 := hall "destination_prefix_list_id" (by simp [destinationFields])
    rcases h1 with h1 | ⟨d, h1⟩
    · rcases h2 with h2 | ⟨d, h2⟩
      · rcases h3 with h3 | ⟨d, h3⟩
        · obtain ⟨k, hk, hne⟩ := hsome
          simp only [destinationFields, List.mem_cons, List.mem_singleton,
            List.not_mem_nil, or_false] at hk
          rcases hk with rfl | rfl | rfl
          · exact absurd h1 hne
          · exact absurd h2 hne
          · exact absurd h3 hne
        · refine ⟨"destination_prefix_list_id", by simp [destinationFields], d, h3, ?_⟩
          simp [route.GetIDFn, hr, valueAt_of_absent _ _ h1, valueAt_of_absent _ _ h2,
            valueAt_of_lookup _ _ _ h3, Value.isNil, Value.assertString, Result.bind]
      · refine ⟨"destination_ipv6_cidr_block", by simp [destinationFields], d, h2, ?_⟩
        simp [route.GetIDFn, hr, valueAt_of_absent _ _ h1, valueAt_of_lookup _ _ _ h2,
          Value.isNil, Value.assertString, Result.bind]
    · refine ⟨"destination_cidr_block", by simp [destinationFields], d, h1, ?_⟩
      simp [route.GetIDFn, hr, valueAt_of_lookup _ _ _ h1, Value.isNil,
        Value.assertString, Result.bind]
  · intro s g hs _
    simp [routeTableAssociation.GetIDFn, hr, valueAt_of_lookup _ _ _ hs, Value.isNil,
      Value.assertString, Result.bind]

theorem ambiguous_fields_accepted_witness :
    (∃ k ∈ destinationFields, ∃ d,
      List.lookup k [("route_table_id", Value.string "rtb-4e616f6d69"),
        ("destination_cidr_block", .string "10.42.0.0/16"),
        ("destination_prefix_list_id", .string "pl-0570a1d2d725c16be"),
        ("subnet_id", .string "subnet-9d4a7b6c"),
        ("gateway_id", .string "igw-c0a643a9")] = some (.string d) ∧
      route.GetIDFn "" [("route_table_id", .string "rtb-4e616f6d69"),
        ("destination_cidr_block", .string "10.42.0.0/16"),
        ("destination_prefix_list_id", .string "pl-0570a1d2d725c16be"),
        ("subnet_id", .string "subnet-9d4a7b6c"),
        ("gateway_id", .string "igw-c0a643a9")] [] = .ok ("rtb-4e616f6d69" ++ "_" ++ d)) ∧
    routeTableAssociation.GetIDFn "" [("route_table_id", .string "rtb-4e616f6d69"),
        ("destination_cidr_block", .string "10.42.0.0/16"),
        ("destination_prefix_list_id", .string "pl-0570a1d2d725c16be"),
        ("subnet_id", .string "subnet-9d4a7b6c"),
        ("gateway_id", .string "igw-c0a643a9")] [] =
      .ok ("subnet-9d4a7b6c" ++ "/" ++ "rtb-4e616f6d69") := by
  have h := ambiguous_fields_accepted "" "rtb-4e616f6d69"
    [("route_table_id", .string "rtb-4e616f6d69"),
      ("destination_cidr_block", .string "10.42.0.0/16"),
      ("destination_prefix_list_id", .string "pl-0570a1d2d725c16be"),
      ("subnet_id", .string "subnet-9d4a7b6c"),
      ("gateway_id", .string "igw-c0a643a9")] [] rfl
  refine ⟨h.1 ?_ ?_, h.2 "subnet-9d4a7b6c" "igw-c0a643a9" rfl rfl⟩
  · intro k hk
    simp only [destinationFields, List.mem_cons, List.mem_singleton, List.not_mem_nil,
      or_false] at hk
    rcases hk with rfl | rfl | rfl
    · exact Or.inr ⟨_, rfl⟩
    · exact Or.inl (Or.inl rfl)
    · exact Or.inr ⟨_, rfl⟩
  · refine ⟨"destination_cidr_block", by simp [destinationFields],
      "destination_prefix_list_id", by simp [destinationFields], by decide, ?_, ?_⟩
    · simp [Absent, List.lookup]
    · simp [Absent, List.lookup]

/-- C15: with a string route table id `r` and exactly one destination field that is not
nil, holding the string `d`, the forward function of `route()` returns `r ++ "_" ++ d`,
whatever the external name is. -/
theorem route_getID_format (r d k : String) (parameters cfg : Bag)
    (hr : parameters.lookup "route_table_id" = some (.string r))
    (hk : k ∈ destinationFields) (hd : parameters.lookup k = some (.string d))
    (hothers : ∀ k1 ∈ destinationFields, k1 ≠ k → Absent parameters k1) :
    ∀ externalName : String,
      route.GetIDFn externalName parameters cfg = .ok (r ++ "_" ++ d) := by
  intro externalName
  have hv := valueAt_of_lookup _ _ _ hd
  simp only [destinationFields, List.mem_cons, List.mem_singleton, List.not_mem_nil,
    or_false] at hk
  rcases hk with rfl | rfl | rfl
  · simp [route.GetIDFn, hr, hv, Value.isNil, Value.assertString, Result.bind]
  · have h1 := valueAt_of_absent _ _
      (hothers "destination_cidr_block" (by simp [destinationFields]) (by decide))
    simp [route.GetIDFn, hr, hv, h1, Value.isNil, Value.assertString, Result.bind]
  · have h1 := valueAt_of_absent _ _
      (hothers "destination_cidr_block" (by simp [destinationFields]) (by decide))
    have h2 := valueAt_of_absent _ _
      (hothers "destination_ipv6_cidr_block" (by simp [destinationFields]) (by decide))
    simp [route.GetIDFn, hr, hv, h1, h2, Value.isNil, Value.assertString, Result.bind]

theorem route_getID_format_witness :
    ExternalNameConfigs.lookup "aws_route" = some Entry.route ∧
    route.GetIDFn "any-name" [("destination_cidr_block", .null),
        ("destination_ipv6_cidr_block", .string "2001:db8::/32"),
        ("route_table_id", .string "rtb-4e616f6d69")] [] =
      .ok "rtb-4e616f6d69_2001:db8::/32" :=
  ⟨by decide,
   (route_getID_format "rtb-4e616f6d69" "2001:db8::/32" "destination_ipv6_cidr_block"
     [("destination_cidr_block", .null),
      ("destination_ipv6_cidr_block", .string "2001:db8::/32"),
      ("route_table_id", .string "rtb-4e616f6d69")] [] rfl
     (by simp [destinationFields]) rfl
     (by
       intro k1 hk1 hne
       simp only [destinationFields, List.mem_cons, List.mem_singleton, List.not_mem_nil,
         or_false] at hk1
       rcases hk1 with rfl | rfl | rfl
       · exact Or.inr rfl
       · exact absurd rfl hne
       · exact Or.inl rfl)
     "any-name").trans (by decide)⟩

/-- C16 (as stated, refuted): with a string route table id, a `subnet_id` that is not a
string and a string `gateway_id`, the forward function of `routeTableAssociation()`
aborts in the type assertion of `subnet_id`; it does not go on to the gateway id. -/
theorem routeTableAssociation_subnet_not_string :
    List.lookup "subnet_id" [("route_table_id", Value.string "rtb-1"),
        ("subnet_id", .number 1), ("gateway_id", .string "igw-1")] =
      some (.number 1) ∧
    List.lookup "gateway_id" [("route_table_id", Value.string "rtb-1"),
        ("subnet_id", .number 1), ("gateway_id", .string "igw-1")] =
      some (.string "igw-1") ∧
    routeTableAssociation.GetIDFn "" [("route_table_id", .string "rtb-1"),
        ("subnet_id", .number 1), ("gateway_id", .string "igw-1")] [] = .abort ∧
    routeTableAssociation.GetIDFn "" [("route_table_id", .string "rtb-1"),
        ("subnet_id", .number 1), ("gateway_id", .string "igw-1")] [] ≠
      .ok "igw-1/rtb-1" := by
  refine ⟨rfl, rfl, by decide, by decide⟩

/-- C16 (amended): with a string route table id `r`, the forward function of
`routeTableAssociation()` returns the subnet id, `/` and `r` when `subnet_id` holds a
string; when `subnet_id` is absent or nil it returns the gateway id, `/` and `r` if
`gateway_id` holds a string, and fails with `"gateway_id or subnet_id has to be given"`
if `gateway_id` is absent or nil as well. -/
theorem routeTableAssociation_getID_format (externalName r : String)
    (parameters cfg : Bag)
    (hr : parameters.lookup "route_table_id" = some (.string r)) :
    (∀ s, parameters.lookup "subnet_id" = some (.string s) →
      routeTableAssociation.GetIDFn externalName parameters cfg = .ok (s ++ "/" ++ r)) ∧
    (∀ g, Absent parameters "subnet_id" →
      parameters.lookup "gateway_id" = some (.string g) →
      routeTableAssociation.GetIDFn externalName parameters cfg = .ok (g ++ "/" ++ r)) ∧
    (Absent parameters "subnet_id" → Absent parameters "gateway_id" →
      routeTableAssociation.GetIDFn externalName parameters cfg =
        .error "gateway_id or subnet_id has to be given") := by
  refine ⟨?_, ?_, ?_⟩
  · intro s hs
    simp [routeTableAssociation.GetIDFn, hr, valueAt_of_lookup _ _ _ hs, Value.isNil,
      Value.assertString, Result.bind]
  · intro g hs hg
    simp [routeTableAssociation.GetIDFn, hr, valueAt_of_absent _ _ hs,
      valueAt_of_lookup _ _ _ hg, Value.isNil, Value.assertString, Result.bind]
  · intro hs hg
    simp [routeTableAssociation.GetIDFn, hr, valueAt_of_absent _ _ hs,
      valueAt_of_absent _ _ hg, Value.isNil]

theorem routeTableAssociation_getID_format_witness :
    ExternalNameConfigs.lookup "aws_route_table_association" =
      some Entry.routeTableAssociation ∧
    routeTableAssociation.GetIDFn "" [("route_table_id", .string "rtb-656c65616e"),
        ("subnet_id", .string "subnet-6d8a72f1")] [] =
      .ok "subnet-6d8a72f1/rtb-656c65616e" ∧
    routeTableAssociation.GetIDFn "" [("route_table_id", .string "rtb-656c65616e"),
        ("gateway_id", .string "igw-01b3a60780f8d034a")] [] =
      .ok "igw-01b3a60780f8d034a/rtb-656c65616e" ∧
    routeTableAssociation.GetIDFn "" [("route_table_id", .string "rtb-656c65616e"),
        ("subnet_id", .null)] [] =
      .error "gateway_id or subnet_id has to be given" :=
  ⟨by decide,
   ((routeTableAssociation_getID_format "" "rtb-656c65616e"
      [("route_table_id", .string "rtb-656c65616e"),
       ("subnet_id", .string "subnet-6d8a72f1")] [] rfl).1
      "subnet-6d8a72f1" rfl).trans (by decide),
   ((routeTableAssociation_getID_format "" "rtb-656c65616e"
      [("route_table_id", .string "rtb-656c65616e"),
       ("gateway_id", .string "igw-01b3a60780f8d034a")] [] rfl).2.1
      "igw-01b3a60780f8d034a" (Or.inl rfl) rfl).trans (by decide),
   (routeTableAssociation_getID_format "" "rtb-656c65616e"
      [("route_table_id", .string "rtb-656c65616e"), ("subnet_id", .null)] [] rfl).2.2
      (Or.inr rfl) (Or.inl rfl)⟩

/-- C17: the forward function of `lambdaFunctionURL()` fails with
`"function_name cannot be empty"` when `function_name` is absent; with a string function
name `f` it returns `f` when `qualifier` is absent, nil or the empty string, and `f`, `/`
and `q` when `qualifier` holds a non-empty string `q`. -/
theorem lambdaFunctionURL_getID_format (externalName : String) (parameters cfg : Bag) :
    (parameters.lookup "function_name" = none →
      lambdaFunctionURL.GetIDFn externalName parameters cfg =
        .error "function_name cannot be empty") ∧
    (∀ f, parameters.lookup "function_name" = some (.string f) →
      ((Absent parameters "qualifier" ∨
          parameters.lookup "qualifier" = some (.string "")) →
        lambdaFunctionURL.GetIDFn externalName parameters cfg = .ok f) ∧
      (∀ q, q ≠ "" → parameters.lookup "qualifier" = some (.string q) →
        lambdaFunctionURL.GetIDFn externalName parameters cfg =
          .ok (f ++ "/" ++ q))) := by
  refine ⟨?_, ?_⟩
  · intro h
    simp only [lambdaFunctionURL.GetIDFn, h]
  · intro f hf
    refine ⟨?_, ?_⟩
    · rintro (hq | hq)
      · simp [lambdaFunctionURL.GetIDFn, hf, valueAt_of_absent _ _ hq, Value.isNil,
          Value.assertString]
      · simp [lambdaFunctionURL.GetIDFn, hf, valueAt_of_lookup _ _ _ hq, Value.isNil,
          Value.eqString, Value.assertString]
    · intro q hne hq
      simp [lambdaFunctionURL.GetIDFn, hf, valueAt_of_lookup _ _ _ hq, Value.isNil,
        Value.eqString, Value.assertString, Result.bind, hne]

theorem lambdaFunctionURL_getID_format_witness :
    ExternalNameConfigs.lookup "aws_lambda_function_url" = some Entry.lambdaFunctionURL ∧
    lambdaFunctionURL.GetIDFn "" [] [] = .error "function_name cannot be empty" ∧
    lambdaFunctionURL.GetIDFn "" [("function_name", .string "my_test_lambda_function"),
        ("qualifier", .string "")] [] = .ok "my_test_lambda_function" ∧
    lambdaFunctionURL.GetIDFn "" [("function_name", .string "my_test_lambda_function")]
        [] = .ok "my_test_lambda_function" ∧
    lambdaFunctionURL.GetIDFn "" [("function_name", .string "my_test_lambda_function"),
        ("qualifier", .string "staging")] [] = .ok "my_test_lambda_function/staging" :=
  ⟨by decide,
   (lambdaFunctionURL_getID_format "" [] []).1 rfl,
   ((lambdaFunctionURL_getID_format ""
      [("function_name", .string "my_test_lambda_function"), ("qualifier", .string "")]
      []).2 "my_test_lambda_function" rfl).1 (Or.inr rfl),
   ((lambdaFunctionURL_getID_format ""
      [("function_name", .string "my_test_lambda_function")]
      []).2 "my_test_lambda_function" rfl).1 (Or.inl (Or.inl rfl)),
   (((lambdaFunctionURL_getID_format ""
      [("function_name", .string "my_test_lambda_function"),
       ("qualifier", .string "staging")]
      []).2 "my_test_lambda_function" rfl).2 "staging" (by decide) rfl).trans
      (by decide)⟩

theorem groupNames_strings (gs : List String) :
    groupNames (gs.map Value.string) = .ok gs := by
  induction gs with
  | nil => rfl
  | cons g gs ih => simp [groupNames, Value.assertString, Result.bind, ih]

/-- C18: the forward function of `iamUserGroupMembership()` fails with
`"user cannot be empty"` when `user` is absent and, with `user` present, with
`"groups cannot be empty"` when `groups` is absent; with a string user `u` and a list of
string groups it returns `u` followed by the groups in list order, joined with `/`,
which is `u` alone for the empty list. -/
theorem iamUserGroupMembership_getID_format (externalName : String)
    (parameters cfg : Bag) :
    (parameters.lookup "user" = none →
      iamUserGroupMembership.GetIDFn externalName parameters cfg =
        .error "user cannot be empty") ∧
    (parameters.lookup "user" ≠ none → parameters.lookup "groups" = none →
      iamUserGroupMembership.GetIDFn externalName parameters cfg =
        .error "groups cannot be empty") ∧
    (∀ u gs, parameters.lookup "user" = some (.string u) →
      parameters.lookup "groups" = some (.list (gs.map Value.string)) →
      iamUserGroupMembership.GetIDFn externalName parameters cfg =
        .ok (Join (u :: gs) "/")) ∧
    (∀ u, parameters.lookup "user" = some (.string u) →
      parameters.lookup "groups" = some (.list []) →
      iamUserGroupMembership.GetIDFn externalName parameters cfg = .ok u) := by
  have hmain : ∀ u gs, parameters.lookup "user" = some (.string u) →
      parameters.lookup "groups" = some (.list (gs.map Value.string)) →
      iamUserGroupMembership.GetIDFn externalName parameters cfg =
        .ok (Join (u :: gs) "/") := by
    intro u gs hu hg
    simp [iamUserGroupMembership.GetIDFn, hu, hg, Value.assertList, Value.assertString,
      Result.bind, groupNames_strings]
  refine ⟨?_, ?_, hmain, ?_⟩
  · intro h
    simp only [iamUserGroupMembership.GetIDFn, h]
  · intro hu hg
    cases h : parameters.lookup "user" with
    | none => exact absurd h hu
    | some u => simp only [iamUserGroupMembership.GetIDFn, h, hg]
  · intro u hu hg
    exact hmain u [] hu hg

theorem iamUserGroupMembership_getID_format_witness :
    ExternalNameConfigs.lookup "aws_iam_user_group_membership" =
      some Entry.iamUserGroupMembership ∧
    iamUserGroupMembership.GetIDFn "" [("groups", .list [])] [] =
      .error "user cannot be empty" ∧
    iamUserGroupMembership.GetIDFn "" [("user", .number 7)] [] =
      .error "groups cannot be empty" ∧
    iamUserGroupMembership.GetIDFn "" [("user", .string "user1"),
        ("groups", .list [.string "group1", .string "group2"])] [] =
      .ok "user1/group1/group2" ∧
    iamUserGroupMembership.GetIDFn "" [("user", .string "user1"),
        ("groups", .list [])] [] = .ok "user1" :=
  ⟨by decide,
   (iamUserGroupMembership_getID_format "" [("groups", .list [])] []).1 rfl,
   (iamUserGroupMembership_getID_format "" [("user", .number 7)] []).2.1
     (by simp [List.lookup]) rfl,
   ((iamUserGroupMembership_getID_format "" [("user", .string "user1"),
      ("groups", .list [.string "group1", .string "group2"])] []).2.2.1
      "user1" ["group1", "group2"] rfl rfl).trans (by decide),
   (iamUserGroupMembership_getID_format "" [("user", .string "user1"),
      ("groups", .list [])] []).2.2.2 "user1" rfl rfl⟩

/-- C19 (as stated, refuted): with the cluster name `"prod:blue"` and the external name
`"oidc"` (non-empty, without `:`) the forward function of `eksOIDCIdentityProvider()`
gives `"prod:blue:oidc"`, from which the reverse function returns `"blue"`. -/
theorem eksOIDC_round_trip_colon_in_cluster :
    "oidc" ≠ "" ∧ ':' ∉ "oidc".data ∧
    eksOIDCIdentityProvider.GetIDFn "oidc" [("cluster_name", .string "prod:blue")] [] =
      .ok "prod:blue:oidc" ∧
    eksOIDCIdentityProvider.GetExternalNameFn [("id", .string "prod:blue:oidc")] =
      .ok "blue" ∧
    eksOIDCIdentityProvider.GetExternalNameFn [("id", .string "prod:blue:oidc")] ≠
      .ok "oidc" := by
  refine ⟨by decide, by decide, by decide, by decide, by decide⟩

/-- C19 (amended): round trip of `eksOIDCIdentityProvider()`.  When `cluster_name` holds
a string without `:` and the external name `n` contains no `:`, the forward function
returns an identifier and the reverse function returns `n` from every state whose `id`
is that identifier. -/
theorem eksOIDC_round_trip (n c : String) (parameters cfg : Bag)
    (hc : parameters.lookup "cluster_name" = some (.string c))
    (hcolon : ':' ∉ c.data) (hn : ':' ∉ n.data) :
    ∃ id, eksOIDCIdentityProvider.GetIDFn n parameters cfg = .ok id ∧
      ∀ tfstate : Bag, tfstate.lookup "id" = some (.string id) →
        eksOIDCIdentityProvider.GetExternalNameFn tfstate = .ok n := by
  refine ⟨c ++ ":" ++ n, ?_, ?_⟩
  · simp [eksOIDCIdentityProvider.GetIDFn, hc, Value.assertString, Result.bind]
  · intro tfstate hid
    have hsep : ":".data ≠ [] := by decide
    have hsplit : Split (c ++ ":" ++ n) ":" = [c, n] := by
      rw [Split_of_ne_nil _ ":" hsep]
      have hdata : (c ++ ":" ++ n).data = c.data ++ ":".data ++ n.data := by
        rw [String.data_append, String.data_append]
      rw [hdata, genSplit_two ":".data c.data n.data (by decide)
        (fun h => hcolon ((colon_infix_iff _).mp h))
        (fun h => hn ((colon_infix_iff _).mp h)) _
        (by simp [List.length_append]; omega)]
      rfl
    simp [eksOIDCIdentityProvider.GetExternalNameFn, hid, Value.assertString,
      Result.bind, hsplit]

theorem eksOIDC_round_trip_witness :
    ExternalNameConfigs.lookup "aws_eks_identity_provider_config" =
      some Entry.eksOIDCIdentityProvider ∧
    ∃ id, eksOIDCIdentityProvider.GetIDFn "my-oidc"
        [("cluster_name", .string "my-cluster")] [] = .ok id ∧
      ∀ tfstate : Bag, tfstate.lookup "id" = some (.string id) →
        eksOIDCIdentityProvider.GetExternalNameFn tfstate = .ok "my-oidc" :=
  ⟨by decide,
   eksOIDC_round_trip "my-oidc" "my-cluster" [("cluster_name", .string "my-cluster")] []
     rfl (by decide) (by decide)⟩

/-! ## Totality, templates and the copied strategy values -/

/-- C21 (the code at ill-typed bags): each custom forward function aborts on a value that
fails its unchecked type assertion, where the forward function of
`FormattedIdentifierFromProvider` returns the error `"<k> needs to be string"` for the
same kind of value. -/
theorem custom_strategies_abort :
    route.GetIDFn "" [("route_table_id", .number 42),
        ("destination_cidr_block", .string "10.42.0.0/16")] [] = .abort ∧
    routeTableAssociation.GetIDFn "" [("route_table_id", .string "rtb-4e616f6d69"),
        ("subnet_id", .number 42)] [] = .abort ∧
    lambdaFunctionURL.GetIDFn "" [("function_name", .null)] [] = .abort ∧
    iamUserGroupMembership.GetIDFn "" [("user", .string "user1"),
        ("groups", .string "group1")] [] = .abort ∧
    eksOIDCIdentityProvider.GetIDFn "my-oidc" [("cluster_name", .number 42)] [] =
      .abort ∧
    FormattedIdentifierFromProvider.GetIDFn "_" ["route_table_id"] ""
        [("route_table_id", .number 42)] [] =
      .error "route_table_id needs to be string" := by
  refine ⟨by decide, by decide, by decide, by decide, by decide, by decide⟩

/-- C22 (the table checked entry by entry): among the 50 templates of
`ExternalNameConfigs` exactly one reads a context path outside the supported roots, the
template of `aws_prometheus_rule_group_namespace` with `.client_metadata.account_id`;
the other templates with an account id read `.setup.client_metadata.account_id`, as the
template of `aws_sns_topic` does. -/
theorem templates_outside_supported_roots :
    (ExternalNameConfigs.filterMap fun kv => kv.2.template?).length = 50 ∧
    unsupportedTemplates ExternalNameConfigs =
      [("aws_prometheus_rule_group_namespace", [".client_metadata.account_id"])] ∧
    (ExternalNameConfigs.lookup "aws_sns_topic").map
        (fun e => (e.template?.map templatePaths).map (List.map String.mk)) =
      some (some [".setup.configuration.region", ".setup.client_metadata.account_id",
        ".external_name"]) := by
  refine ⟨by decide, by decide, by decide⟩

/-- C23: the strategy returned by `TemplatedStringAsIdentifierWithNoName(tmpl)` is
`config.TemplatedStringAsIdentifier("", tmpl)` (the name field is empty) with
`DisableNameInitializer` set to `true`; every other field is that of
`config.TemplatedStringAsIdentifier("", tmpl)`. -/
theorem templatedStringAsIdentifierWithNoName_fields {Ω : Type}
    (TemplatedStringAsIdentifier : String → String → ExternalName Ω) (tmpl : String) :
    (TemplatedStringAsIdentifierWithNoName TemplatedStringAsIdentifier tmpl).DisableNameInitializer
      = true ∧
    (TemplatedStringAsIdentifierWithNoName TemplatedStringAsIdentifier tmpl).SetIdentifierArgumentFn
      = (TemplatedStringAsIdentifier "" tmpl).SetIdentifierArgumentFn ∧
    (TemplatedStringAsIdentifierWithNoName TemplatedStringAsIdentifier tmpl).GetExternalNameFn
      = (TemplatedStringAsIdentifier "" tmpl).GetExternalNameFn ∧
    (TemplatedStringAsIdentifierWithNoName TemplatedStringAsIdentifier tmpl).GetIDFn
      = (TemplatedStringAsIdentifier "" tmpl).GetIDFn ∧
    (TemplatedStringAsIdentifierWithNoName TemplatedStringAsIdentifier tmpl).OmittedFields
      = (TemplatedStringAsIdentifier "" tmpl).OmittedFields ∧
    (TemplatedStringAsIdentifierWithNoName TemplatedStringAsIdentifier tmpl).other
      = (TemplatedStringAsIdentifier "" tmpl).other :=
  ⟨rfl, rfl, rfl, rfl, rfl, rfl⟩

theorem keyValues_ok_of_ok (m1 m2 : String) (parameters : Bag) (keys : List String)
    (vals : List String) (h : keyValues m1 parameters keys = .ok vals) :
    keyValues m2 parameters keys = .ok vals ∧ vals.length = keys.length := by
  induction keys generalizing vals with
  | nil =>
    simp only [keyValues, Result.ok.injEq] at h
    subst h
    exact ⟨rfl, rfl⟩
  | cons k keys ih =>
    simp only [keyValues] at h ⊢
    cases hk : parameters.lookup k with
    | none => simp [hk] at h
    | some v =>
      cases v with
      | string s =>
        simp only [hk] at h ⊢
        cases hr : keyValues m1 parameters keys with
        | ok vs =>
          simp only [hr, Result.ok.injEq] at h
          subst h
          obtain ⟨h1, h2⟩ := ih vs hr
          simp [h1, h2]
        | error msg => simp [hr] at h
        | abort => simp [hr] at h
      | _ => simp [hk] at h

/-- C24: for a non-empty key list the forward function of
`FormattedIdentifierUserDefinedNameLast` succeeds exactly when the forward function of
`FormattedIdentifierFromProvider` succeeds for the same separator and keys, and its
result is then the result of the latter followed by the separator and the external
name. -/
theorem nameLast_extends_fromProvider (separator n : String) (keys : List String)
    (parameters cfg : Bag) (hkeys : keys ≠ []) :
    ((∃ id, FormattedIdentifierUserDefinedNameLast.GetIDFn separator keys n
        parameters cfg = .ok id) ↔
      (∃ id, FormattedIdentifierFromProvider.GetIDFn separator keys n
        parameters cfg = .ok id)) ∧
    ∀ id, FormattedIdentifierFromProvider.GetIDFn separator keys n parameters cfg =
        .ok id →
      FormattedIdentifierUserDefinedNameLast.GetIDFn separator keys n parameters cfg =
        .ok (id ++ separator ++ n) := by
  have hforward : ∀ id, FormattedIdentifierFromProvider.GetIDFn separator keys n
      parameters cfg = .ok id →
      FormattedIdentifierUserDefinedNameLast.GetIDFn separator keys n parameters cfg =
        .ok (id ++ separator ++ n) := by
    intro id hid
    simp only [FormattedIdentifierFromProvider.GetIDFn] at hid
    cases hr : keyValues " needs to be string" parameters keys with
    | ok vals =>
      simp only [hr, Result.ok.injEq] at hid
      obtain ⟨h1, h2⟩ := keyValues_ok_of_ok _ " needs to be a string" _ _ _ hr
      cases vals with
      | nil =>
        cases keys with
        | nil => exact absurd rfl hkeys
        | cons k ks => simp at h2
      | cons a rest =>
        simp only [FormattedIdentifierUserDefinedNameLast.GetIDFn, h1,
          Join_append_singleton, hid]
    | error msg => simp [hr] at hid
    | abort => simp [hr] at hid
  refine ⟨⟨?_, ?_⟩, hforward⟩
  · rintro ⟨id, hid⟩
    simp only [FormattedIdentifierUserDefinedNameLast.GetIDFn] at hid
    cases hr : keyValues " needs to be a string" parameters keys with
    | ok vals =>
      obtain ⟨h1, _⟩ := keyValues_ok_of_ok _ " needs to be string" _ _ _ hr
      exact ⟨Join vals separator, by simp only [FormattedIdentifierFromProvider.GetIDFn, h1]⟩
    | error msg => simp [hr] at hid
    | abort => simp [hr] at hid
  · rintro ⟨id, hid⟩
    exact ⟨_, hforward id hid⟩

theorem nameLast_extends_fromProvider_witness :
    FormattedIdentifierFromProvider.GetIDFn "/" ["server_id"] "user1"
        [("server_id", .string "s-12345678")] [] = .ok "s-12345678" ∧
    FormattedIdentifierUserDefinedNameLast.GetIDFn "/" ["server_id"] "user1"
        [("server_id", .string "s-12345678")] [] = .ok "s-12345678/user1" :=
  ⟨by decide,
   ((nameLast_extends_fromProvider "/" "user1" ["server_id"]
      [("server_id", .string "s-12345678")] [] (by simp)).2 "s-12345678"
      (by decide)).trans (by decide)⟩

/-- C25: the strategy returned by `FormattedIdentifierFromProvider(separator, keys...)`
has the fields of `config.IdentifierFromProvider` except for `GetIDFn`, which is the new
closure; the reverse function and `DisableNameInitializer` are those of
`config.IdentifierFromProvider`, and the package variable holds the same value after
the call as before. -/
theorem formattedIdentifierFromProvider_by_value {Ω : Type}
    (IdentifierFromProvider : ExternalName Ω) (separator : String) (keys : List String) :
    (FormattedIdentifierFromProvider IdentifierFromProvider separator keys).1.GetIDFn =
      FormattedIdentifierFromProvider.GetIDFn separator keys ∧
    (FormattedIdentifierFromProvider IdentifierFromProvider separator
        keys).1.SetIdentifierArgumentFn = IdentifierFromProvider.SetIdentifierArgumentFn ∧
    (FormattedIdentifierFromProvider IdentifierFromProvider separator
        keys).1.GetExternalNameFn = IdentifierFromProvider.GetExternalNameFn ∧
    (FormattedIdentifierFromProvider IdentifierFromProvider separator
        keys).1.OmittedFields = IdentifierFromProvider.OmittedFields ∧
    (FormattedIdentifierFromProvider IdentifierFromProvider separator
        keys).1.DisableNameInitializer = IdentifierFromProvider.DisableNameInitializer ∧
    (FormattedIdentifierFromProvider IdentifierFromProvider separator keys).1.other =
      IdentifierFromProvider.other ∧
    (FormattedIdentifierFromProvider IdentifierFromProvider separator keys).2 =
      IdentifierFromProvider :=
  ⟨rfl, rfl, rfl, rfl, rfl, rfl, rfl⟩

/-- C29 (the code at the entry): the template of `aws_kinesis_stream` begins with a
blank before `arn:aws:kinesis:`, while the template of
`aws_kinesis_firehose_delivery_stream`, of the same shape, begins with `arn:`. -/
theorem kinesis_stream_template_leading_blank :
    ExternalNameConfigs.lookup "aws_kinesis_stream" =
      some (.TemplatedStringAsIdentifier "name"
        (" arn:aws:kinesis:\x7b\x7b .setup.configuration.region \x7d\x7d:" ++
          "\x7b\x7b .setup.client_metadata.account_id \x7d\x7d:stream/" ++
          "\x7b\x7b .external_name \x7d\x7d")) ∧
    ((ExternalNameConfigs.lookup "aws_kinesis_stream").bind Entry.template?).map
        (fun t => (t.data.head?, decide ("arn:aws:kinesis:".data <+: t.data),
          decide ("arn:aws:kinesis:".data <+: t.data.drop 1))) =
      some (some ' ', false, true) ∧
    ((ExternalNameConfigs.lookup "aws_kinesis_firehose_delivery_stream").bind
        Entry.template?).map (fun t => decide ("arn:aws:firehose:".data <+: t.data)) =
      some true := by
  refine ⟨by decide, by decide, by decide⟩

/-! ## Errors of the reverse functions, missing inputs and the token selection -/

/-- C26: for every separator and every state, the reverse functions of
`FormattedIdentifierUserDefinedNameLast` and `FormattedIdentifierUserDefinedNameFirst`
fail with `"id in tfstate cannot be empty"` exactly when the state has no `id`, and with
`"value of id needs to be string"` exactly when `id` holds a value that is not a
string; in both cases no name is returned. -/
theorem getExternalName_errors (separator : String) (tfstate : Bag) :
    (FormattedIdentifierUserDefinedNameLast.GetExternalNameFn separator tfstate =
        .error "id in tfstate cannot be empty" ↔ tfstate.lookup "id" = none) ∧
    (FormattedIdentifierUserDefinedNameLast.GetExternalNameFn separator tfstate =
        .error "value of id needs to be string" ↔
      ∃ v, tfstate.lookup "id" = some v ∧ ∀ s, v ≠ .string s) ∧
    (FormattedIdentifierUserDefinedNameFirst.GetExternalNameFn separator tfstate =
        .error "id in tfstate cannot be empty" ↔ tfstate.lookup "id" = none) ∧
    (FormattedIdentifierUserDefinedNameFirst.GetExternalNameFn separator tfstate =
        .error "value of id needs to be string" ↔
      ∃ v, tfstate.lookup "id" = some v ∧ ∀ s, v ≠ .string s) ∧
    ((tfstate.lookup "id" = none ∨
        ∃ v, tfstate.lookup "id" = some v ∧ ∀ s, v ≠ .string s) →
      ∀ name,
        FormattedIdentifierUserDefinedNameLast.GetExternalNameFn separator tfstate ≠
          .ok name ∧
        FormattedIdentifierUserDefinedNameFirst.GetExternalNameFn separator tfstate ≠
          .ok name) := by
  have hne : "id in tfstate cannot be empty" ≠ "value of id needs to be string" := by
    decide
  cases h : tfstate.lookup "id" with
  | none =>
    simp [FormattedIdentifierUserDefinedNameLast.GetExternalNameFn,
      FormattedIdentifierUserDefinedNameFirst.GetExternalNameFn, h, hne]
  | some v =>
    cases v with
    | string s =>
      have h1 : ∀ msg, FormattedIdentifierUserDefinedNameLast.GetExternalNameFn separator
          tfstate ≠ .error msg := by
        intro msg
        simp only [FormattedIdentifierUserDefinedNameLast.GetExternalNameFn, h]
        cases (Split s separator).getLast? <;> simp
      have h2 : ∀ msg, FormattedIdentifierUserDefinedNameFirst.GetExternalNameFn separator
          tfstate ≠ .error msg := by
        intro msg
        simp only [FormattedIdentifierUserDefinedNameFirst.GetExternalNameFn, h]
        cases (Split s separator).head? <;> simp
      simp [h1, h2]
    | _ =>
      simp [FormattedIdentifierUserDefinedNameLast.GetExternalNameFn,
        FormattedIdentifierUserDefinedNameFirst.GetExternalNameFn, h, hne.symm]

theorem getExternalName_errors_witness :
    FormattedIdentifierUserDefinedNameLast.GetExternalNameFn ":" [("arn", .string "a")] =
      .error "id in tfstate cannot be empty" ∧
    FormattedIdentifierUserDefinedNameFirst.GetExternalNameFn ":" [("id", .number 7)] =
      .error "value of id needs to be string" :=
  ⟨(getExternalName_errors ":" [("arn", .string "a")]).1.mpr rfl,
   (getExternalName_errors ":" [("id", .number 7)]).2.2.2.1.mpr
     ⟨.number 7, rfl, fun _ h => Value.noConfusion h⟩⟩

/-- C27: the forward function of `route()` fails with `"route_table_id cannot be empty"`
when the bag has no `route_table_id`, whatever the destination fields are; with a string
route table id and all three destination fields absent or nil it fails with the error
that names the three destination fields. -/
theorem route_getID_missing_inputs (externalName : String) (parameters cfg : Bag) :
    (parameters.lookup "route_table_id" = none →
      route.GetIDFn externalName parameters cfg =
        .error "route_table_id cannot be empty") ∧
    (∀ r, parameters.lookup "route_table_id" = some (.string r) →
      (∀ k ∈ destinationFields, Absent parameters k) →
      route.GetIDFn externalName parameters cfg =
        .error ("destination_cidr_block or destination_ipv6_cidr_block or " ++
          "destination_prefix_list_id has to be given")) := by
  refine ⟨?_, ?_⟩
  · intro h
    simp only [route.GetIDFn, h]
  · intro r hr hall
    have h1 := valueAt_of_absent _ _
      (hall "destination_cidr_block" (by simp [destinationFields]))
    have h2 := valueAt_of_absent _ _
      (hall "destination_ipv6_cidr_block" (by simp [destinationFields]))
    have h3 := valueAt_of_absent _ _
      (hall "destination_prefix_list_id" (by simp [destinationFields]))
    simp [route.GetIDFn, hr, h1, h2, h3, Value.isNil]

theorem route_getID_missing_inputs_witness :
    route.GetIDFn "" [("destination_cidr_block", .string "10.42.0.0/16")] [] =
      .error "route_table_id cannot be empty" ∧
    route.GetIDFn "" [("route_table_id", .string "rtb-4e616f6d69"),
        ("destination_prefix_list_id", .null)] [] =
      .error ("destination_cidr_block or destination_ipv6_cidr_block or " ++
        "destination_prefix_list_id has to be given") :=
  ⟨(route_getID_missing_inputs "" [("destination_cidr_block", .string "10.42.0.0/16")]
      []).1 rfl,
   (route_getID_missing_inputs "" [("route_table_id", .string "rtb-4e616f6d69"),
      ("destination_prefix_list_id", .null)] []).2 "rtb-4e616f6d69" rfl
      (by
        intro k hk
        simp only [destinationFields, List.mem_cons, List.mem_singleton,
          List.not_mem_nil, or_false] at hk
        rcases hk with rfl | rfl | rfl
        · exact Or.inl rfl
        · exact Or.inl rfl
        · exact Or.inr rfl)⟩

/-- The split of `a ++ sep ++ rest` starts with `a` when the unbordered separator does
not occur in `a`, and continues with the split of `rest`. -/
theorem genSplit_cons (sep a rest : List Char) (hu : Unbordered sep)
    (ha : ¬ sep <:+: a) (n : Nat) :
    genSplit sep (n + 1) (a ++ sep ++ rest) = a :: genSplit sep n rest := by
  have htake : (a ++ sep ++ rest).take a.length = a := by
    rw [List.append_assoc, List.take_left]
  have hdrop : (a ++ sep ++ rest).drop (a.length + sep.length) = rest := by
    rw [← List.length_append, List.drop_left]
  simp only [genSplit, Index_append sep a rest hu ha, htake, hdrop]

theorem first_colon (l : List Char) (h : ':' ∈ l) :
    ∃ a rest, l = a ++ [':'] ++ rest ∧ ':' ∉ a := by
  induction l with
  | nil => exact absurd h (List.not_mem_nil _)
  | cons c cs ih =>
    by_cases hc : c = ':'
    · exact ⟨[], cs, by simp [hc], List.not_mem_nil _⟩
    · have hcs : ':' ∈ cs := by
        rcases List.mem_cons.mp h with h1 | h1
        · exact absurd h1.symm hc
        · exact h1
      obtain ⟨a, rest, hl, ha⟩ := ih hcs
      refine ⟨c :: a, rest, by simp [hl], ?_⟩
      intro hmem
      rcases List.mem_cons.mp hmem with h1 | h1
      · exact hc h1.symm
      · exact ha h1

/-- C28: the reverse function of `eksOIDCIdentityProvider()` fails with
`"there is no id in tfstate"` when the state has no `id`; when `id` is a string with at
least one `:`, written as `a`, the first `:`, and `rest`, it returns the text of `rest`
before the next `:`, or all of `rest` when `rest` has no `:`. -/
theorem eksOIDC_getExternalName_second_token (tfstate : Bag) :
    (tfstate.lookup "id" = none →
      eksOIDCIdentityProvider.GetExternalNameFn tfstate =
        .error "there is no id in tfstate") ∧
    (∀ id, tfstate.lookup "id" = some (.string id) → ':' ∈ id.data →
      ∃ a rest name, id.data = a ++ [':'] ++ rest ∧ ':' ∉ a ∧
        eksOIDCIdentityProvider.GetExternalNameFn tfstate = .ok name ∧
        BeforeFirst [':'] rest name.data) := by
  refine ⟨?_, ?_⟩
  · intro h
    simp only [eksOIDCIdentityProvider.GetExternalNameFn, h]
  · intro id hid hcolon
    obtain ⟨a, rest, hdata, ha⟩ := first_colon id.data hcolon
    have hsep : ":".data ≠ [] := by decide
    have hsd : ":".data = [':'] := rfl
    have hne : ([':'] : List Char) ≠ [] := by simp
    obtain ⟨r, hr, hspec⟩ :=
      genSplit_head [':'] hne (a.length + rest.length) rest (by omega)
    have hlen : id.data.length = a.length + rest.length + 1 := by
      rw [hdata]
      simp only [List.length_append, List.length_singleton]
      omega
    have hsplit : Split id ":" =
        String.mk a :: (genSplit [':'] (a.length + rest.length) rest).map String.mk := by
      rw [Split_of_ne_nil id ":" hsep, hsd, hlen, hdata,
        genSplit_cons [':'] a rest (by decide)
          (fun h => ha ((colon_infix_iff a).mp h)), List.map_cons]
    refine ⟨a, rest, String.mk r, hdata, ha, ?_, hspec⟩
    simp only [eksOIDCIdentityProvider.GetExternalNameFn, hid, Value.assertString,
      Result.bind, hsplit, List.getElem?_cons_succ, List.getElem?_map,
      ← List.head?_eq_getElem?, List.head?_map, hr, Option.map_some']

theorem eksOIDC_getExternalName_second_token_witness :
    eksOIDCIdentityProvider.GetExternalNameFn [("arn", .string "x")] =
      .error "there is no id in tfstate" ∧
    eksOIDCIdentityProvider.GetExternalNameFn
        [("id", .string "my-cluster:my-oidc:extra")] = .ok "my-oidc" ∧
    ∃ a rest name, "my-cluster:my-oidc".data = a ++ [':'] ++ rest ∧ ':' ∉ a ∧
      eksOIDCIdentityProvider.GetExternalNameFn [("id", .string "my-cluster:my-oidc")] =
        .ok name ∧
      BeforeFirst [':'] rest name.data :=
  ⟨(eksOIDC_getExternalName_second_token [("arn", .string "x")]).1 rfl,
   by decide,
   (eksOIDC_getExternalName_second_token [("id", .string "my-cluster:my-oidc")]).2
     "my-cluster:my-oidc" rfl (by decide)⟩

/-- C30: for every non-empty separator and every string `id`, the empty string
included, the split has at least one token, so the reverse functions of
`FormattedIdentifierUserDefinedNameLast` and `FormattedIdentifierUserDefinedNameFirst`
return a name and do not abort. -/
theorem split_has_token (separator id : String) (hsep : separator ≠ "") :
    Split id separator ≠ [] ∧
    ∀ tfstate : Bag, tfstate.lookup "id" = some (.string id) →
      (∃ name, FormattedIdentifierUserDefinedNameLast.GetExternalNameFn separator
        tfstate = .ok name) ∧
      (∃ name, FormattedIdentifierUserDefinedNameFirst.GetExternalNameFn separator
        tfstate = .ok name) := by
  have hd := data_ne_nil separator hsep
  refine ⟨?_, ?_⟩
  · rw [Split_of_ne_nil id separator hd]
    intro h
    exact genSplit_ne_nil _ _ _ (List.map_eq_nil_iff.mp h)
  · intro tfstate hid
    obtain ⟨r1, h1, _⟩ := getExternalName_last separator id tfstate hd hid
    obtain ⟨r2, h2, _⟩ := getExternalName_first separator id tfstate hd hid
    exact ⟨⟨_, h1⟩, ⟨_, h2⟩⟩

theorem split_has_token_witness :
    Split "" ":" = [""] ∧
    (∃ name, FormattedIdentifierUserDefinedNameLast.GetExternalNameFn ":"
      [("id", .string "")] = .ok name) ∧
    (∃ name, FormattedIdentifierUserDefinedNameFirst.GetExternalNameFn ":"
      [("id", .string "")] = .ok name) :=
  ⟨by decide, (split_has_token ":" "" (by decide)).2 [("id", .string "")] rfl⟩

/-! ## The destination order of `route()` and the initializer of the EKS strategy -/

/-- C31 (as stated, refuted): with a string route table id, a `destination_cidr_block`
that is not a string and two further destination fields that hold strings, the forward
function of `route()` aborts in the type assertion of the first field that is not nil;
it does not succeed. -/
theorem route_first_destination_not_string :
    List.lookup "destination_ipv6_cidr_block" [("route_table_id", Value.string "rtb-1"),
        ("destination_cidr_block", .number 1),
        ("destination_ipv6_cidr_block", .string "::/0"),
        ("destination_prefix_list_id", .string "pl-1")] = some (.string "::/0") ∧
    List.lookup "destination_prefix_list_id" [("route_table_id", Value.string "rtb-1"),
        ("destination_cidr_block", .number 1),
        ("destination_ipv6_cidr_block", .string "::/0"),
        ("destination_prefix_list_id", .string "pl-1")] = some (.string "pl-1") ∧
    route.GetIDFn "" [("route_table_id", .string "rtb-1"),
        ("destination_cidr_block", .number 1),
        ("destination_ipv6_cidr_block", .string "::/0"),
        ("destination_prefix_list_id", .string "pl-1")] [] = .abort ∧
    route.GetIDFn "" [("route_table_id", .string "rtb-1"),
        ("destination_cidr_block", .number 1),
        ("destination_ipv6_cidr_block", .string "::/0"),
        ("destination_prefix_list_id", .string "pl-1")] [] ≠ .ok "rtb-1_::/0" := by
  refine ⟨rfl, rfl, by decide, by decide⟩

/-- C31 (amended): with a string route table id `r`, the forward function of `route()`
uses the first destination field, in the order `destination_cidr_block`,
`destination_ipv6_cidr_block`, `destination_prefix_list_id`, that is not nil: when the
fields before `k` are absent or nil and `k` holds the string `d`, it returns
`r ++ "_" ++ d`, whatever the fields after `k` hold. -/
theorem route_destination_priority (externalName r d k : String)
    (front back : List String) (parameters cfg : Bag)
    (hr : parameters.lookup "route_table_id" = some (.string r))
    (hsplit : destinationFields = front ++ k :: back)
    (hfront : ∀ k1 ∈ front, Absent parameters k1)
    (hd : parameters.lookup k = some (.string d)) :
    route.GetIDFn externalName parameters cfg = .ok (r ++ "_" ++ d) := by
  have hv := valueAt_of_lookup _ _ _ hd
  rcases front with _ | ⟨f1, _ | ⟨f2, _ | ⟨f3, front⟩⟩⟩
  · simp only [destinationFields, List.nil_append, List.cons.injEq] at hsplit
    obtain ⟨rfl, _⟩ := hsplit
    simp [route.GetIDFn, hr, hv, Value.isNil, Value.assertString, Result.bind]
  · simp only [destinationFields, List.cons_append, List.nil_append,
      List.cons.injEq] at hsplit
    obtain ⟨rfl, rfl, _⟩ := hsplit
    have h1 := valueAt_of_absent _ _ (hfront _ (List.mem_cons_self _ _))
    simp [route.GetIDFn, hr, hv, h1, Value.isNil, Value.assertString, Result.bind]
  · simp only [destinationFields, List.cons_append, List.nil_append,
      List.cons.injEq] at hsplit
    obtain ⟨rfl, rfl, rfl, _⟩ := hsplit
    have h1 := valueAt_of_absent _ _ (hfront _ (List.mem_cons_self _ _))
    have h2 := valueAt_of_absent _ _
      (hfront _ (List.mem_cons_of_mem _ (List.mem_cons_self _ _)))
    simp [route.GetIDFn, hr, hv, h1, h2, Value.isNil, Value.assertString, Result.bind]
  · simp [destinationFields] at hsplit

theorem route_destination_priority_witness :
    route.GetIDFn "" [("route_table_id", .string "rtb-4e616f6d69"),
        ("destination_cidr_block", .string "10.42.0.0/16"),
        ("destination_ipv6_cidr_block", .string "2001:db8::/32"),
        ("destination_prefix_list_id", .string "pl-0570a1d2d725c16be")] [] =
      .ok "rtb-4e616f6d69_10.42.0.0/16" ∧
    route.GetIDFn "" [("route_table_id", .string "rtb-4e616f6d69"),
        ("destination_prefix_list_id", .string "pl-0570a1d2d725c16be"),
        ("destination_ipv6_cidr_block", .string "2001:db8::/32")] [] =
      .ok "rtb-4e616f6d69_2001:db8::/32" :=
  ⟨(route_destination_priority "" "rtb-4e616f6d69" "10.42.0.0/16"
      "destination_cidr_block" []
      ["destination_ipv6_cidr_block", "destination_prefix_list_id"]
      [("route_table_id", .string "rtb-4e616f6d69"),
        ("destination_cidr_block", .string "10.42.0.0/16"),
        ("destination_ipv6_cidr_block", .string "2001:db8::/32"),
        ("destination_prefix_list_id", .string "pl-0570a1d2d725c16be")] [] rfl rfl
      (fun k1 hk1 => absurd hk1 (List.not_mem_nil k1)) rfl).trans (by decide),
   (route_destination_priority "" "rtb-4e616f6d69" "2001:db8::/32"
      "destination_ipv6_cidr_block" ["destination_cidr_block"]
      ["destination_prefix_list_id"]
      [("route_table_id", .string "rtb-4e616f6d69"),
        ("destination_prefix_list_id", .string "pl-0570a1d2d725c16be"),
        ("destination_ipv6_cidr_block", .string "2001:db8::/32")] [] rfl rfl
      (by
        intro k1 hk1
        simp only [List.mem_singleton] at hk1
        subst hk1
        exact Or.inl rfl)
      rfl).trans (by decide)⟩

theorem lookup_setKey_self (m : Bag) (key : String) (v : Value) :
    (setKey m key v).lookup key = some v := by
  induction m with
  | nil => simp [setKey, List.lookup]
  | cons kw rest ih =>
    obtain ⟨k, w⟩ := kw
    by_cases h : key = k
    · simp [setKey, List.lookup, h]
    · have hb : (key == k) = false := beq_eq_false_iff_ne.mpr h
      simp [setKey, List.lookup, hb, ih]

theorem lookup_setKey_of_ne (m : Bag) (key k1 : String) (v : Value) (h : k1 ≠ key) :
    (setKey m key v).lookup k1 = m.lookup k1 := by
  have hb : (k1 == key) = false := beq_eq_false_iff_ne.mpr h
  induction m with
  | nil => simp [setKey, List.lookup, hb]
  | cons kw rest ih =>
    obtain ⟨k, w⟩ := kw
    by_cases hk : key = k
    · subst hk
      simp [setKey, List.lookup, hb]
    · have hb2 : (key == k) = false := beq_eq_false_iff_ne.mpr hk
      simp [setKey, List.lookup, hb2, ih]

/-- C32: when `oidc` holds a list of exactly one element that is a map `m`, the bag
after `SetIdentifierArgumentFn` of `eksOIDCIdentityProvider()` holds under `oidc` a list
of one map in which `identity_provider_config_name` is the external name and every
other key is bound as in `m`; every other key of the bag is bound as before. -/
theorem eksOIDC_initializer_injects (base m : Bag) (n : String)
    (h : base.lookup "oidc" = some (.list [.map m])) :
    ∃ m1 : Bag,
      (eksOIDCIdentityProvider.SetIdentifierArgumentFn base n).lookup "oidc" =
        some (.list [.map m1]) ∧
      m1.lookup "identity_provider_config_name" = some (.string n) ∧
      (∀ k, k ≠ "identity_provider_config_name" → m1.lookup k = m.lookup k) ∧
      (∀ k, k ≠ "oidc" →
        (eksOIDCIdentityProvider.SetIdentifierArgumentFn base n).lookup k =
          base.lookup k) := by
  have hres : eksOIDCIdentityProvider.SetIdentifierArgumentFn base n =
      setKey base "oidc"
        (.list [.map (setKey m "identity_provider_config_name" (.string n))]) := by
    simp only [eksOIDCIdentityProvider.SetIdentifierArgumentFn, h,
      valueAt_of_lookup _ _ _ h]
  refine ⟨setKey m "identity_provider_config_name" (.string n), ?_, ?_, ?_, ?_⟩
  · rw [hres, lookup_setKey_self]
  · exact lookup_setKey_self _ _ _
  · intro k hk
    exact lookup_setKey_of_ne _ _ _ _ hk
  · intro k hk
    rw [hres]
    exact lookup_setKey_of_ne _ _ _ _ hk

theorem eksOIDC_initializer_injects_witness :
    eksOIDCIdentityProvider.SetIdentifierArgumentFn
        [("cluster_name", .string "my-cluster"),
         ("oidc", .list [.map [("client_id", .string "sts.amazonaws.com"),
            ("identity_provider_config_name", .string "old")]])] "my-oidc" =
      [("cluster_name", .string "my-cluster"),
       ("oidc", .list [.map [("client_id", .string "sts.amazonaws.com"),
          ("identity_provider_config_name", .string "my-oidc")]])] ∧
    ∃ m1 : Bag,
      (eksOIDCIdentityProvider.SetIdentifierArgumentFn
        [("cluster_name", .string "my-cluster"),
         ("oidc", .list [.map [("client_id", .string "sts.amazonaws.com"),
            ("identity_provider_config_name", .string "old")]])] "my-oidc").lookup
          "oidc" = some (.list [.map m1]) ∧
      m1.lookup "identity_provider_config_name" = some (.string "my-oidc") ∧
      (∀ k, k ≠ "identity_provider_config_name" →
        m1.lookup k = List.lookup k [("client_id", Value.string "sts.amazonaws.com"),
          ("identity_provider_config_name", .string "old")]) ∧
      (∀ k, k ≠ "oidc" →
        (eksOIDCIdentityProvider.SetIdentifierArgumentFn
          [("cluster_name", .string "my-cluster"),
           ("oidc", .list [.map [("client_id", .string "sts.amazonaws.com"),
              ("identity_provider_config_name", .string "old")]])] "my-oidc").lookup k =
          List.lookup k [("cluster_name", Value.string "my-cluster"),
            ("oidc", .list [.map [("client_id", .string "sts.amazonaws.com"),
              ("identity_provider_config_name", .string "old")]])]) :=
  ⟨rfl,
   eksOIDC_initializer_injects
     [("cluster_name", .string "my-cluster"),
      ("oidc", .list [.map [("client_id", .string "sts.amazonaws.com"),
         ("identity_provider_config_name", .string "old")]])]
     [("client_id", .string "sts.amazonaws.com"),
      ("identity_provider_config_name", .string "old")] "my-oidc" rfl⟩

/-- C33: when the bag has no `oidc`, `SetIdentifierArgumentFn` of
`eksOIDCIdentityProvider()` binds `oidc` to the empty map, leaves every other key as it
was and does not use the external name; when `oidc` holds a value that is not a list of
exactly one map, the bag after the call is the bag before it. -/
theorem eksOIDC_initializer_no_injection (base : Bag) (n : String) :
    (base.lookup "oidc" = none →
      eksOIDCIdentityProvider.SetIdentifierArgumentFn base n =
        setKey base "oidc" (.map []) ∧
      (eksOIDCIdentityProvider.SetIdentifierArgumentFn base n).lookup "oidc" =
        some (.map []) ∧
      (∀ k, k ≠ "oidc" →
        (eksOIDCIdentityProvider.SetIdentifierArgumentFn base n).lookup k =
          base.lookup k) ∧
      (∀ n1, eksOIDCIdentityProvider.SetIdentifierArgumentFn base n1 =
        eksOIDCIdentityProvider.SetIdentifierArgumentFn base n)) ∧
    (∀ v, base.lookup "oidc" = some v → (∀ m, v ≠ .list [.map m]) →
      eksOIDCIdentityProvider.SetIdentifierArgumentFn base n = base) := by
  refine ⟨?_, ?_⟩
  · intro h
    have hres : ∀ n1, eksOIDCIdentityProvider.SetIdentifierArgumentFn base n1 =
        setKey base "oidc" (.map []) := by
      intro n1
      simp only [eksOIDCIdentityProvider.SetIdentifierArgumentFn, h,
        valueAt_of_lookup _ _ _ (lookup_setKey_self base "oidc" (.map []))]
    refine ⟨hres n, ?_, ?_, ?_⟩
    · rw [hres, lookup_setKey_self]
    · intro k hk
      rw [hres]
      exact lookup_setKey_of_ne _ _ _ _ hk
    · intro n1
      rw [hres, hres]
  · intro v hv hne
    simp only [eksOIDCIdentityProvider.SetIdentifierArgumentFn, hv,
      valueAt_of_lookup _ _ _ hv]

theorem eksOIDC_initializer_no_injection_witness :
    eksOIDCIdentityProvider.SetIdentifierArgumentFn
        [("cluster_name", .string "my-cluster")] "my-oidc" =
      [("cluster_name", .string "my-cluster"), ("oidc", .map [])] ∧
    eksOIDCIdentityProvider.SetIdentifierArgumentFn
        [("oidc", .list [])] "my-oidc" = [("oidc", .list [])] ∧
    eksOIDCIdentityProvider.SetIdentifierArgumentFn
        [("oidc", .list [.map [], .map []])] "my-oidc" =
      [("oidc", .list [.map [], .map []])] ∧
    eksOIDCIdentityProvider.SetIdentifierArgumentFn
        [("oidc", .map [("client_id", .string "sts.amazonaws.com")])] "my-oidc" =
      [("oidc", .map [("client_id", .string "sts.amazonaws.com")])] :=
  ⟨((eksOIDC_initializer_no_injection [("cluster_name", .string "my-cluster")]
      "my-oidc").1 rfl).1,
   (eksOIDC_initializer_no_injection [("oidc", .list [])] "my-oidc").2
     (.list []) rfl (fun m h => by simp at h),
   (eksOIDC_initializer_no_injection [("oidc", .list [.map [], .map []])] "my-oidc").2
     (.list [.map [], .map []]) rfl (fun m h => by simp at h),
   (eksOIDC_initializer_no_injection
     [("oidc", .map [("client_id", .string "sts.amazonaws.com")])] "my-oidc").2
     (.map [("client_id", .string "sts.amazonaws.com")]) rfl
     (fun m h => Value.noConfusion h)⟩

end Config
